import Mathlib

/-!
Verification development for the NextGenFitness repository
(`backend/db_manager.py`, `backend/NextGenFItness.py`).

The store behind both files is SQLite.  We model the fragment of SQLite the
code exercises explicitly: a database is a list of named tables, a table has
an ordered column list (name, declared type, primary-key flag, as reported by
`PRAGMA table_info`) and a list of rows, and each cell holds a NULL, an
integer, a decimal (for REAL columns) or a text value.  Identifier matching
(table and column names) is ASCII case-insensitive, as in SQLite.
-/

/-- ASCII lower-casing of one character (SQLite identifier folding). -/
def lowerChar (c : Char) : Char :=
  if 65 ≤ c.toNat ∧ c.toNat ≤ 90 then Char.ofNat (c.toNat + 32) else c

/-- ASCII case-insensitive equality of identifiers. -/
def lowerEq (a b : String) : Bool :=
  a.data.map lowerChar == b.data.map lowerChar

/-- Byte-wise (memcmp) strict order on character lists; this is how SQLite
orders two TEXT values under the default BINARY collation (all values in the
flows below are ASCII). -/
def strLtChars : List Char → List Char → Bool
  | [], [] => false
  | [], _ :: _ => true
  | _ :: _, [] => false
  | a :: as, b :: bs =>
    if a.toNat < b.toNat then true
    else if a.toNat = b.toNat then strLtChars as bs
    else false

/-- Numeric value of a decimal digit character, if it is one. -/
def digitVal? (c : Char) : Option Nat :=
  if 48 ≤ c.toNat ∧ c.toNat ≤ 57 then some (c.toNat - 48) else none

/-- Parse a non-empty all-digit character list as a natural number (the
behavior of Python `int(...)` on the digit strings arising in this code;
anything else raises `ValueError`, which we model as `none`). -/
def parseNatChars (cs : List Char) : Option Nat :=
  if cs = [] then none
  else cs.foldl (fun acc c =>
    match acc, digitVal? c with
    | some n, some d => some (n * 10 + d)
    | _, _ => none) (some 0)

/-- Parse an optionally `-`-signed decimal integer (Python `int(...)` /
SQLite integer conversion on the strings arising in this code). -/
def parseIntChars (cs : List Char) : Option Int :=
  match cs with
  | '-' :: rest => (parseNatChars rest).map (fun n => -(n : Int))
  | _ => (parseNatChars cs).map (fun n => (n : Int))

/-- Parse an optionally signed decimal with an optional fractional part, as a
pair (mantissa, number of fractional digits): `"12.5"` becomes `(125, 1)`.
This models Python `float(...)` / SQLite REAL conversion on the plain decimal
literals arising in this code; `none` models a `ValueError`. -/
def parseRealChars (cs : List Char) : Option (Int × Nat) :=
  let core : List Char → Option (Int × Nat) := fun l =>
    match l.splitOn '.' with
    | [w] => (parseNatChars w).map (fun n => ((n : Int), 0))
    | [w, f] =>
      match parseNatChars (w ++ f), f.length with
      | some n, k => some ((n : Int), k)
      | none, _ => none
    | _ => none
  match cs with
  | '-' :: rest => (core rest).map (fun p => (-p.1, p.2))
  | _ => core cs

/-- A stored SQLite value: NULL, integer, decimal `mant · 10^(-frac)`, or
text. -/
inductive Val where
  | null
  | int (n : Int)
  | real (mant : Int) (frac : Nat)
  | text (s : String)
  deriving DecidableEq, Repr

/-- One column as reported by `PRAGMA table_info`: name, declared type and
primary-key flag (the code reads fields 1, 2 and 5 of the PRAGMA rows). -/
structure Col where
  name : String
  type : String
  pk : Bool
  deriving DecidableEq, Repr

/-- A table: catalog name, ordered columns, rows in storage order. -/
structure Table where
  name : String
  cols : List Col
  rows : List (List Val)
  deriving DecidableEq, Repr

/-- The database: the tables in `sqlite_master` order. -/
abbrev DB := List Table

/-- Errors raised by the store (`sqlite3.Error` subclasses). -/
inductive DBErr where
  | noSuchTable (t : String)
  | noSuchColumn (c : String)
  | tableExists (t : String)
  | dupColumn (c : String)
  | parseError
  deriving DecidableEq, Repr

/-- Look a table up by (case-insensitive) name. -/
def findTable? (db : DB) (t : String) : Option Table :=
  db.find? (fun tb => lowerEq tb.name t)

/-- Index of the first column matching a (case-insensitive) name. -/
def colIdx? (cols : List Col) (c : String) : Option Nat :=
  match cols with
  | [] => none
  | col :: rest =>
    if lowerEq col.name c then some 0 else (colIdx? rest c).map (· + 1)

/-- SQLite type affinity of a declared column type.  The declared types
occurring in this repository are `INTEGER`, `TEXT` (also spelled `Text`),
`REAL`, `BOOLEAN`, `TIMESTAMP`, `BLOB`, and the affinity names `INT` and
`NUM` produced by `CREATE TABLE ... AS SELECT`; the match is
case-insensitive as in SQLite. -/
def affinityOf (ty : String) : String :=
  if lowerEq ty "integer" ∨ lowerEq ty "int" then "INTEGER"
  else if lowerEq ty "text" then "TEXT"
  else if lowerEq ty "real" then "REAL"
  else if lowerEq ty "blob" ∨ ty = "" then "BLOB"
  else "NUMERIC"

/-- Numeric conversion of a text value where SQLite applies INTEGER, REAL or
NUMERIC affinity; non-convertible text is kept as text. -/
def numAffinity (v : Val) : Val :=
  match v with
  | .text s =>
    match parseIntChars s.data with
    | some n => .int n
    | none =>
      match parseRealChars s.data with
      | some p => .real p.1 p.2
      | none => .text s
  | v => v

/-- Apply a column's affinity to a value being stored into it. -/
def applyAffinity (ty : String) (v : Val) : Val :=
  match v with
  | .null => .null
  | v =>
    if affinityOf ty = "INTEGER" ∨ affinityOf ty = "NUMERIC" then numAffinity v
    else if affinityOf ty = "REAL" then
      match numAffinity v with
      | .int n => .real n 0
      | w => w
    else if affinityOf ty = "TEXT" then
      match v with
      | .int n => .text (toString n)
      | w => w
    else v

/-- Exact numeric comparison of the two numeric shapes as rationals. -/
def numLtB : Val → Val → Bool
  | .int a, .int b => a < b
  | .int a, .real m e => a * (10 : Int) ^ e < m
  | .real m e, .int b => m < b * (10 : Int) ^ e
  | .real m₁ e₁, .real m₂ e₂ => m₁ * (10 : Int) ^ e₂ < m₂ * (10 : Int) ^ e₁
  | _, _ => false

def numEqB : Val → Val → Bool
  | .int a, .int b => a == b
  | .int a, .real m e => a * (10 : Int) ^ e == m
  | .real m e, .int b => m == b * (10 : Int) ^ e
  | .real m₁ e₁, .real m₂ e₂ => m₁ * (10 : Int) ^ e₂ == m₂ * (10 : Int) ^ e₁
  | _, _ => false

/-- SQLite storage-class rank: NULL < numbers < TEXT. -/
def valRank : Val → Nat
  | .null => 0
  | .int _ => 1
  | .real _ _ => 1
  | .text _ => 2

/-- SQLite `ORDER BY` comparison on stored values. -/
def valLtB (a b : Val) : Bool :=
  if valRank a < valRank b then true
  else if valRank b < valRank a then false
  else
    match a, b with
    | .text s, .text t => strLtChars s.data t.data
    | a, b => numLtB a b

/-- SQLite `=` on stored values (NULL never compares equal). -/
def valEqB (a : Val) (b : Val) : Bool :=
  match a, b with
  | .null, _ => false
  | _, .null => false
  | .text s, .text t => s == t
  | a, b => numEqB a b

/-- SQLite comparison of a stored column value against a bound parameter:
when the column has a numeric affinity, NUMERIC affinity is applied to the
parameter first. -/
def bindCompare (colTy : String) (stored param : Val) : Bool :=
  let a := affinityOf colTy
  let p := if a = "INTEGER" ∨ a = "REAL" ∨ a = "NUMERIC" then numAffinity param else param
  valEqB stored p

/-- `SELECT * FROM t WHERE c = ?`: the matching rows in storage order. -/
def selectWhere (db : DB) (t c : String) (param : Val) :
    Except DBErr (List (List Val)) :=
  match findTable? db t with
  | none => .error (.noSuchTable t)
  | some tb =>
    match colIdx? tb.cols c with
    | none => .error (.noSuchColumn c)
    | some i =>
      .ok (tb.rows.filter (fun r =>
        bindCompare ((tb.cols.getD i ⟨"", "", false⟩).type) (r.getD i .null) param))

/-- Running maximum used to model `ORDER BY c DESC LIMIT 1` (NULLs sort last
under `DESC`, which the `valLtB` order reproduces since NULL is smallest). -/
def maxVal? (vs : List Val) : Option Val :=
  vs.foldl (fun acc v =>
    match acc with
    | none => some v
    | some m => some (if valLtB m v then v else m)) none

/-- `SELECT c FROM t ORDER BY c DESC LIMIT 1`. -/
def selectMaxCol (db : DB) (t c : String) : Except DBErr (Option Val) :=
  match findTable? db t with
  | none => .error (.noSuchTable t)
  | some tb =>
    match colIdx? tb.cols c with
    | none => .error (.noSuchColumn c)
    | some i => .ok (maxVal? (tb.rows.map (fun r => r.getD i .null)))

/-- Replace the (unique) table with the given name. -/
def replaceTable (db : DB) (t : String) (f : Table → Table) : DB :=
  db.map (fun tb => if lowerEq tb.name t then f tb else tb)

/-- `INSERT INTO t (c₁, …) VALUES (?, …)`: every named column must exist;
unnamed columns receive NULL; each value is stored under the column's
affinity.  (The modelled tables carry no constraints, so a well-formed
insert always succeeds.) -/
def insertInto (db : DB) (t : String) (vals : List (String × Val)) :
    Except DBErr DB :=
  match findTable? db t with
  | none => .error (.noSuchTable t)
  | some tb =>
    match vals.find? (fun p => (colIdx? tb.cols p.1).isNone) with
    | some p => .error (.noSuchColumn p.1)
    | none =>
      let row := tb.cols.map (fun c =>
        match vals.find? (fun p => lowerEq p.1 c.name) with
        | some p => applyAffinity c.type p.2
        | none => .null)
      .ok (replaceTable db t (fun x => { x with rows := x.rows ++ [row] }))

/-- A resolved item of a bare `SELECT` list: a column reference, or a
numeric literal (an unquoted item that is not a column name but parses as a
number is a literal in SQLite — e.g. `SELECT 5 FROM t`). -/
inductive SelItem where
  | colRef (i : Nat) (c : Col)
  | litInt (n : Int) (disp : String)
  | litReal (m : Int) (e : Nat) (disp : String)
  deriving DecidableEq, Repr

/-- Resolve one bare select-list item against a column list. -/
def resolveItem (cols : List Col) (s : String) : Option SelItem :=
  match colIdx? cols s with
  | some i => some (.colRef i (cols.getD i ⟨"", "", false⟩))
  | none =>
    match parseIntChars s.data with
    | some n => some (.litInt n s)
    | none =>
      match parseRealChars s.data with
      | some p => some (.litReal p.1 p.2 s)
      | none => none

/-- Output column name of a resolved item. -/
def selItemName : SelItem → String
  | .colRef _ c => c.name
  | .litInt _ d => d
  | .litReal _ _ d => d

/-- Declared type given to a result column by `CREATE TABLE ... AS SELECT`
(the affinity name of the source expression; a plain literal has none). -/
def declaredOfAffinity (a : String) : String :=
  if a = "INTEGER" then "INT"
  else if a = "TEXT" then "TEXT"
  else if a = "REAL" then "REAL"
  else if a = "NUMERIC" then "NUM"
  else ""

/-- Value of a resolved item on one row. -/
def selItemVal (r : List Val) : SelItem → Val
  | .colRef i _ => r.getD i .null
  | .litInt n _ => .int n
  | .litReal m e _ => .real m e

/-- `CREATE TABLE newName AS SELECT items FROM src`.  Fails if `newName`
already exists, `src` does not, the select list is empty or has an
unresolvable item, or two result columns share a name.  The created table
carries **no** primary key and no other constraints (SQLite semantics of
`CREATE TABLE ... AS SELECT`). -/
def createAsSelect (db : DB) (newName : String) (items : List String)
    (src : String) : Except DBErr DB :=
  if (findTable? db newName).isSome then .error (.tableExists newName)
  else
    match findTable? db src with
    | none => .error (.noSuchTable src)
    | some tb =>
      if items = [] then .error .parseError
      else
        match items.find? (fun s => (resolveItem tb.cols s).isNone) with
        | some s => .error (.noSuchColumn s)
        | none =>
          let sels := items.filterMap (resolveItem tb.cols)
          let names := sels.map selItemName
          if names.Pairwise (fun a b => lowerEq a b = false) then
            let cols := sels.map (fun s =>
              match s with
              | .colRef _ c => Col.mk c.name (declaredOfAffinity (affinityOf c.type)) false
              | s => Col.mk (selItemName s) "" false)
            let rows := tb.rows.map (fun r => sels.map (selItemVal r))
            .ok (db ++ [⟨newName, cols, rows⟩])
          else .error (.dupColumn "")

/-- `DROP TABLE t`. -/
def dropTable (db : DB) (t : String) : Except DBErr DB :=
  if (findTable? db t).isSome then
    .ok (db.filter (fun tb => !(lowerEq tb.name t)))
  else .error (.noSuchTable t)

/-- `ALTER TABLE old RENAME TO new`. -/
def alterRename (db : DB) (old new : String) : Except DBErr DB :=
  if (findTable? db old).isNone then .error (.noSuchTable old)
  else if (findTable? db new).isSome then .error (.tableExists new)
  else .ok (replaceTable db old (fun tb => { tb with name := new }))

/-- `PRAGMA table_info(t)`: the column list, empty when the table does not
exist (the PRAGMA returns no rows rather than failing). -/
def pragmaCols (db : DB) (t : String) : List Col :=
  match findTable? db t with
  | some tb => tb.cols
  | none => []

/-!  ## `db_manager.py` — `NextGenFitnessDB` operations  -/

/-- Outcome of `insert_record`.  `valueError` is an **uncaught** Python
`ValueError` escaping from `int(...)`/`float(...)` — the `except` clause of
`insert_record` catches only `sqlite3.Error`. -/
inductive InsertOut where
  | inserted
  | insertError (e : DBErr)
  | valueError
  deriving DecidableEq, Repr

/-- The per-column conversion in `insert_record`'s input loop:
`value = int(value) if value else None` for a column whose declared type is
exactly `"INTEGER"`, likewise `float` for `"REAL"`, and the raw string for
every other declared type.  `none` models the `ValueError` raised by a
failed conversion. -/
def coerceInput (ty : String) (s : String) : Option Val :=
  if ty = "INTEGER" then
    if s = "" then some .null else (parseIntChars s.data).map .int
  else if ty = "REAL" then
    if s = "" then some .null else (parseRealChars s.data).map (fun p => .real p.1 p.2)
  else some (.text s)

/-- Convert all inputs, stopping at the first failed conversion. -/
def coerceAll : List (Col × String) → Option (List Val)
  | [] => some []
  | (c, s) :: rest =>
    match coerceInput c.type s with
    | none => none
    | some v => (coerceAll rest).map (fun vs => v :: vs)

/-- `NextGenFitnessDB.insert_record`: read one input per PRAGMA column,
convert by declared type, then `INSERT INTO t (all columns) VALUES (…)`. -/
def insert_record (db : DB) (t : String) (inputs : List String) :
    InsertOut × DB :=
  let cols := pragmaCols db t
  match coerceAll (cols.zip inputs) with
  | none => (.valueError, db)
  | some vals =>
    match insertInto db t ((cols.map (·.name)).zip vals) with
    | .error e => (.insertError e, db)
    | .ok db' => (.inserted, db')

/-- Outcome of `update_record`. -/
inductive UpdateOut where
  | updNoPk        -- "Error: No primary key found in table …", early return
  | updNoChanges   -- "No changes made" (every input left empty)
  | updUpdated     -- "Record updated successfully" (printed unconditionally
                   -- after the UPDATE, whether or not any row matched)
  deriving DecidableEq, Repr

/-- `NextGenFitnessDB.update_record`: find the first PRAGMA column flagged
as primary key; read one input per non-primary-key column, an empty input
meaning "keep current value"; if any input is non-empty, run a single
`UPDATE t SET … WHERE pk = ?` with the raw input strings as parameters and
report success. -/
def update_record (db : DB) (t : String) (pkValue : String)
    (inputs : List String) : UpdateOut × DB :=
  let cols := pragmaCols db t
  match cols.find? (fun c => c.pk) with
  | none => (.updNoPk, db)
  | some pkCol =>
    let nonPk := cols.filter (fun c => c.name ≠ pkCol.name)
    let updates := (nonPk.zip inputs).filter (fun p => p.2 ≠ "")
    if updates = [] then (.updNoChanges, db)
    else
      let pkIdx := (colIdx? cols pkCol.name).getD 0
      let setRow := fun (r : List Val) =>
        updates.foldl (fun row (p : Col × String) =>
          match colIdx? cols p.1.name with
          | some j => row.set j (applyAffinity p.1.type (.text p.2))
          | none => row) r
      let db' := replaceTable db t (fun tb =>
        { tb with rows := tb.rows.map (fun r =>
            if bindCompare pkCol.type (r.getD pkIdx .null) (.text pkValue)
            then setRow r else r) })
      (.updUpdated, db')

/-- Outcome of `delete_record`. -/
inductive DeleteOut where
  | delNoPk        -- "Error: No primary key found in table …", early return
  | delDeleted     -- "Record deleted successfully"
  | delCancelled   -- confirmation refused
  deriving DecidableEq, Repr

/-- `NextGenFitnessDB.delete_record`: requires a primary-key column, then a
`y` confirmation, then `DELETE FROM t WHERE pk = ?`. -/
def delete_record (db : DB) (t : String) (pkValue : String)
    (confirm : String) : DeleteOut × DB :=
  let cols := pragmaCols db t
  match cols.find? (fun c => c.pk) with
  | none => (.delNoPk, db)
  | some pkCol =>
    if lowerEq confirm "y" then
      let pkIdx := (colIdx? cols pkCol.name).getD 0
      let db' := replaceTable db t (fun tb =>
        { tb with rows := tb.rows.filter (fun r =>
            !(bindCompare pkCol.type (r.getD pkIdx .null) (.text pkValue))) })
      (.delDeleted, db')
    else (.delCancelled, db)

/-- Outcome of the rebuild sequence in `modify_table`.  On an error the
`except` clause only *prints* the message: no `rollback()` is issued, so the
effects of the statements already executed persist — `rbErr` therefore
carries the store as left behind. -/
inductive RebuildOut where
  | rbOk (db : DB)
  | rbErr (db : DB) (e : DBErr)
  deriving DecidableEq, Repr

def RebuildOut.store : RebuildOut → DB
  | .rbOk db => db
  | .rbErr db _ => db

/-- Run one statement, with fault injection: statement `i` fails (with no
effect) whenever `faults i` is true, modelling a store-level failure at that
point of the sequence. -/
def execStmt (faults : Nat → Bool) (i : Nat) (act : DB → Except DBErr DB)
    (db : DB) : Except DBErr DB :=
  if faults i then .error .parseError else act db

/-- The three-statement rebuild sequence shared by the rename-column and
drop-column branches of `modify_table`:
`CREATE TABLE t_new AS SELECT items FROM t`; `DROP TABLE t`;
`ALTER TABLE t_new RENAME TO t`.  Executed one after the other with no
enclosing transaction management; the first failure stops the sequence. -/
def rebuild (db : DB) (t : String) (items : List String)
    (faults : Nat → Bool) : RebuildOut :=
  match execStmt faults 0 (fun d => createAsSelect d (t ++ "_new") items t) db with
  | .error e => .rbErr db e
  | .ok db1 =>
    match execStmt faults 1 (fun d => dropTable d t) db1 with
    | .error e => .rbErr db1 e
    | .ok db2 =>
      match execStmt faults 2 (fun d => alterRename d (t ++ "_new") t) db2 with
      | .error e => .rbErr db2 e
      | .ok db3 => .rbOk db3

/-- `modify_table`, choice 2 (rename column): the select list is the PRAGMA
column-name list with `new` substituted for `old` — the projection refers to
the **new** name, with no aliasing of the old column. -/
def modify_table_rename (db : DB) (t old new : String)
    (faults : Nat → Bool) : RebuildOut :=
  let items := ((pragmaCols db t).map (·.name)).map
    (fun c => if c = old then new else c)
  rebuild db t items faults

/-- `modify_table`, choice 3 (drop column): the select list is the PRAGMA
column-name list with entries equal to `col` filtered out. -/
def modify_table_drop (db : DB) (t col : String)
    (faults : Nat → Bool) : RebuildOut :=
  let items := ((pragmaCols db t).map (·.name)).filter (fun c => c ≠ col)
  rebuild db t items faults

/-- The no-fault schedule (normal execution). -/
def noFaults : Nat → Bool := fun _ => false

/-!  ## `NextGenFItness.py` — Flask endpoints  -/

/-- Python `f"U{new_num:03d}"` without the leading `U`: the decimal digits
zero-padded to width 3 (numbers of four or more digits print in full). -/
def pad3chars (n : Nat) : List Char :=
  if n < 1000 then
    [Nat.digitChar (n / 100), Nat.digitChar (n / 10 % 10), Nat.digitChar (n % 10)]
  else (Nat.repr n).data

/-- The identifier issued for sequence number `n`: `U001`, `U002`, … -/
def fmtUserId (n : Nat) : String := "U" ++ String.mk (pad3chars n)

/-- A parsed signup request body (`role` defaults to 1). -/
structure SignupReq where
  username : String
  email : String
  password : String
  role : Int := 1
  deriving DecidableEq, Repr

/-- Observable outcome of the `/signup` handler.  `storeErr` and `pyCrash`
are uncaught exceptions (`sqlite3.Error` and `ValueError`/`TypeError`
respectively), which Flask turns into an HTTP 500 response. -/
inductive SignupOut where
  | created (user_id : String)  -- 201, {'message': …, 'user_id': …}
  | dupUsername                 -- 409, {'error': 'Username already exists'}
  | dupEmail                    -- 409, {'error': 'Email already registered'}
  | storeErr (e : DBErr)        -- HTTP 500
  | pyCrash                     -- HTTP 500
  deriving DecidableEq, Repr

/-- HTTP status of a signup outcome. -/
def signupStatus : SignupOut → Nat
  | .created _ => 201
  | .dupUsername => 409
  | .dupEmail => 409
  | .storeErr _ => 500
  | .pyCrash => 500

/-- Python truthiness of a fetched SQLite value (`if last and last[0]:`). -/
def valTruthy : Val → Bool
  | .null => false
  | .int n => n != 0
  | .real m _ => m != 0
  | .text s => s != ""

/-- The `/signup` handler, parametrised by the password-hash function (the
external `generate_password_hash` collaborator).  It checks the username
then the email for duplicates in table `User`, derives the next identifier
from `SELECT user_id FROM User ORDER BY user_id DESC LIMIT 1` by stripping
the leading `U` (`int(last[0][1:])`) and adding one, formats it as
`f"U{new_num:03d}"`, and inserts the new row. -/
def signup (hash : String → String) (db : DB) (req : SignupReq) :
    SignupOut × DB :=
  match selectWhere db "User" "username" (.text req.username) with
  | .error e => (.storeErr e, db)
  | .ok rows1 =>
    if rows1.head?.isSome then (.dupUsername, db)
    else
      match selectWhere db "User" "email" (.text req.email) with
      | .error e => (.storeErr e, db)
      | .ok rows2 =>
        if rows2.head?.isSome then (.dupEmail, db)
        else
          match selectMaxCol db "User" "user_id" with
          | .error e => (.storeErr e, db)
          | .ok last =>
            match (match last with
              | none => Except.ok 1
              | some v =>
                if valTruthy v then
                  match v with
                  | .text s =>
                    match parseNatChars (s.data.drop 1) with
                    | some m => Except.ok (m + 1)
                    | none => Except.error ()     -- int() raises ValueError
                  | _ => Except.error ()          -- slicing a non-str value
                else Except.ok 1 : Except Unit Nat) with
            | .error _ => (.pyCrash, db)
            | .ok n =>
              let uid := fmtUserId n
              match insertInto db "User"
                  [("user_id", .text uid), ("username", .text req.username),
                   ("email", .text req.email),
                   ("password", .text (hash req.password)),
                   ("role", .int req.role)] with
              | .error e => (.storeErr e, db)
              | .ok db' => (.created uid, db')

/-- A sequence of signup requests against an evolving store. -/
def runSignups (hash : String → String) :
    List SignupReq → DB → List SignupOut × DB
  | [], db => ([], db)
  | r :: rs, db =>
    let p := signup hash db r
    let q := runSignups hash rs p.2
    (p.1 :: q.1, q.2)

/-- The identifiers issued by a sequence of signup outcomes (the
`user_id` field of each 201 response, in order). -/
def issuedIds (outs : List SignupOut) : List String :=
  outs.filterMap (fun o =>
    match o with
    | .created u => some u
    | _ => none)

/-- Observable outcome of the `/login` handler. -/
inductive LoginOut where
  | okLogin                     -- 200, {'message': 'Login successful'}
  | badLogin                    -- 401, {'error': 'Invalid username or password'}
  | loginStoreErr (e : DBErr)   -- uncaught sqlite3 error, HTTP 500
  deriving DecidableEq, Repr

/-- The full observable HTTP response of a login outcome. -/
def loginResponse : LoginOut → Nat × String
  | .okLogin => (200, "Login successful")
  | .badLogin => (401, "Invalid username or password")
  | .loginStoreErr _ => (500, "Internal Server Error")

/-- Text content of a stored value (the stored password hashes in the flows
below are always text). -/
def valText : Val → String
  | .text s => s
  | _ => ""

/-- The `/login` handler, parametrised by the external
`check_password_hash` collaborator: `SELECT password FROM User WHERE
username = ?`, then `if row and check_password_hash(row[0], password)`. -/
def login (check : String → String → Bool) (db : DB)
    (username password : String) : LoginOut :=
  match colIdx? (pragmaCols db "User") "password" with
  | none => .loginStoreErr (.noSuchColumn "password")
  | some j =>
    match selectWhere db "User" "username" (.text username) with
    | .error e => .loginStoreErr e
    | .ok rows =>
      match rows.head? with
      | none => .badLogin
      | some r =>
        if check (valText (r.getD j .null)) password then .okLogin
        else .badLogin

/-- The store produced by `init_db`: exactly one empty table, named
`users`, from `CREATE TABLE IF NOT EXISTS users (ID INTEGER PRIMARY KEY
AUTOINCREMENT, username TEXT, email Text Unique, password TEXT,
role INTEGER)`. -/
def usersCols : List Col :=
  [⟨"ID", "INTEGER", true⟩, ⟨"username", "TEXT", false⟩,
   ⟨"email", "Text", false⟩, ⟨"password", "TEXT", false⟩,
   ⟨"role", "INTEGER", false⟩]

def initStore : DB := [⟨"users", usersCols, []⟩]

/-- Modelled from the spec: the `User` table that `signup` and `login`
query is created nowhere under `src/` (`init_db` creates `users` instead).
Spec §3 and §6 give its shape — identifier `user_id` (string `U` +
zero-padded sequence number), username, email, password hash, role
(integer).  We model it with TEXT affinity for the string fields, INTEGER
for role, `user_id` as the key, and no further constraints. -/
def userCols : List Col :=
  [⟨"user_id", "TEXT", true⟩, ⟨"username", "TEXT", false⟩,
   ⟨"email", "TEXT", false⟩, ⟨"password", "TEXT", false⟩,
   ⟨"role", "INTEGER", false⟩]

/-- A store holding the spec-modelled `User` table with the given rows. -/
def userDB (rows : List (List Val)) : DB := [⟨"User", userCols, rows⟩]

/-!  ## Concrete fixtures used by witnesses and counterexamples  -/

/-- Whether a rebuild ended in a caught store error. -/
def RebuildOut.isErr : RebuildOut → Bool
  | .rbOk _ => false
  | .rbErr _ _ => true

/-- Fixture: `t (id INTEGER PRIMARY KEY, name TEXT)` with two rows. -/
def tFix : Table :=
  ⟨"t", [⟨"id", "INTEGER", true⟩, ⟨"name", "TEXT", false⟩],
   [[.int 1, .text "x"], [.int 2, .text "y"]]⟩

def dbFix : DB := [tFix]

/-- Fixture: the same table with a single row. -/
def tFix1 : Table :=
  ⟨"t", [⟨"id", "INTEGER", true⟩, ⟨"name", "TEXT", false⟩],
   [[.int 1, .text "x"]]⟩

def dbFix1 : DB := [tFix1]

/-- Fixture: `t (id INTEGER PRIMARY KEY, n INTEGER)` with no rows. -/
def tFixInt : Table :=
  ⟨"t", [⟨"id", "INTEGER", true⟩, ⟨"n", "INTEGER", false⟩], []⟩

def dbFixInt : DB := [tFixInt]

/-- Fixture: a concrete password-hash collaborator for witnesses. -/
def hashFix : String → String := fun s => "H" ++ s

/-- Fixture: a concrete password-check collaborator for witnesses. -/
def checkFix : String → String → Bool := fun h p => h == "H" ++ p

/-- Fixture: a stored `User` row for Alice (password hash `Hpw`). -/
def aliceRow : List Val :=
  [.text "U001", .text "alice", .text "a@x", .text "Hpw", .int 1]

/-- The `User` row inserted by a successful signup with sequence number
`n`. -/
def mkUserRow (hash : String → String) (req : SignupReq) (n : Nat) :
    List Val :=
  [.text (fmtUserId n), .text req.username, .text req.email,
   .text (hash req.password), .int req.role]

/-- The rows of the `User` table after the given requests have signed up,
numbered from `n`. -/
def expectedRows (hash : String → String) :
    List SignupReq → Nat → List (List Val)
  | [], _ => []
  | r :: rs, n => mkUserRow hash r n :: expectedRows hash rs (n + 1)

/-- `count` consecutive naturals starting at `start`. -/
def natsFrom : Nat → Nat → List Nat
  | _, 0 => []
  | s, n + 1 => s :: natsFrom (s + 1) n

/-- Fixture: the `i`-th signup request of the counterexample run; all
usernames and all emails are pairwise distinct. -/
def reqFix (i : Nat) : SignupReq :=
  ⟨"u" ++ String.mk (pad3chars i), "e" ++ String.mk (pad3chars i), "pw", 1⟩

/-- Fixture: 1001 signup requests with pairwise-distinct usernames and
pairwise-distinct emails. -/
def reqs1001 : List SignupReq := (natsFrom 1 1001).map reqFix

/-- The column list of the table built by `CREATE TABLE ... AS SELECT`:
one column per resolved item, with the affinity-derived declared type and
**no** primary-key flag. -/
def projCols (cols : List Col) (items : List String) : List Col :=
  (items.filterMap (resolveItem cols)).map (fun s =>
    match s with
    | .colRef _ c => Col.mk c.name (declaredOfAffinity (affinityOf c.type)) false
    | s => Col.mk (selItemName s) "" false)

/-- The rows of the table built by `CREATE TABLE ... AS SELECT`. -/
def projRows (cols : List Col) (items : List String)
    (rows : List (List Val)) : List (List Val) :=
  rows.map (fun r => (items.filterMap (resolveItem cols)).map (selItemVal r))

/-- The tables of `db` other than (any spelt like) `t`. -/
def dbWithout (db : DB) (t : String) : DB :=
  db.filter (fun x => !(lowerEq x.name t))

/-!  ## Theorems  -/

/-- Claim C3: on the store initialized by `init_db` — whose only table is
`users` with columns ID, username, email, password, role — every signup
request, whatever its username and email, raises a store error (HTTP 500)
rather than returning 201: the very first query `SELECT * FROM User WHERE
username = ?` refers to a table `User` that does not exist, so execution
never reaches the `user_id` selection and insert (which the created table
could not satisfy either). -/
theorem signup_on_init_store_errors (hash : String → String) (req : SignupReq) :
    signup hash initStore req = (.storeErr (.noSuchTable "User"), initStore) ∧
    signupStatus (signup hash initStore req).1 = 500 ∧
    signupStatus (signup hash initStore req).1 ≠ 201 := by
  refine ⟨rfl, rfl, ?_⟩
  intro h
  rw [show signupStatus (signup hash initStore req).1 = 500 from rfl] at h
  exact absurd h (by decide)

/-- Claim C5 (counterexample): inserting into `t (id INTEGER PRIMARY KEY,
n INTEGER)` the values `"1"` and `"abc"` does not fail with a defined
`TypeMismatch` error — the `int("abc")` conversion raises an uncaught
`ValueError` (the `except` clause catches only `sqlite3.Error`), so the
operation crashes; no row is added. -/
theorem insert_record_crash_cex :
    insert_record dbFixInt "t" ["1", "abc"] = (.valueError, dbFixInt) := by
  decide

/-- Claim C6 (counterexample): updating `t (id INTEGER PRIMARY KEY, name
TEXT)` at primary-key value `5`, which matches no stored row, with a
non-empty field set does not fail with `RecordNotFound`: the code reports
success (`Record updated successfully`) and leaves the table unchanged. -/
theorem update_record_no_match_cex :
    update_record dbFix "t" "5" ["z"] = (.updUpdated, dbFix) := by
  decide

/-- Claim C7 (counterexample): the update does not distinguish omitting a
field from setting it to the empty value — supplying the empty string for
`name` (the only way the input loop could express "set to empty") is taken
as "keep current value": the handler reports `No changes made` and the row
keeps `name = "x"` instead of being set to the empty string. -/
theorem update_record_empty_conflated_cex :
    update_record dbFix1 "t" "1" [""] = (.updNoChanges, dbFix1) ∧
    ((update_record dbFix1 "t" "1" [""]).2.headD tFix1).rows.headD [] =
      [.int 1, .text "x"] := by
  decide

/-- Claim C4 (counterexample): `DropColumn` performs no validation.
Dropping the absent column `zzz` from `t (id INTEGER PRIMARY KEY, name
TEXT)` does not fail with `ColumnNotFound` — it succeeds as a full-copy
rebuild (which moreover loses the primary key); and dropping `name`, the
last non-primary-key column, does not fail with `LastColumn` — it succeeds,
leaving only the former key column. -/
theorem modify_table_drop_no_validation_cex :
    modify_table_drop dbFix "t" "zzz" noFaults =
      .rbOk [⟨"t", [⟨"id", "INT", false⟩, ⟨"name", "TEXT", false⟩],
              [[.int 1, .text "x"], [.int 2, .text "y"]]⟩] ∧
    modify_table_drop dbFix "t" "name" noFaults =
      .rbOk [⟨"t", [⟨"id", "INT", false⟩], [[.int 1], [.int 2]]⟩] := by
  decide

/-- Claim C8 (counterexample): a successful `RenameColumn` need not
preserve data.  Renaming `name` to `5` on `t (id INTEGER PRIMARY KEY, name
TEXT)` with one row `(1, "x")` succeeds — the projection item `5` is a
numeric literal, the only way the rebuilt `SELECT` can succeed, since the
projection uses the new name with no alias — and produces the row
`(1, 5)`: the pre-rename row `(1, "x")` is not present afterwards. -/
theorem modify_table_rename_literal_cex :
    modify_table_rename dbFix1 "t" "name" "5" noFaults =
      .rbOk [⟨"t", [⟨"id", "INT", false⟩, ⟨"5", "", false⟩],
              [[.int 1, .int 5]]⟩] ∧
    [Val.int 1, Val.text "x"] ∉
      (((modify_table_rename dbFix1 "t" "name" "5" noFaults).store.headD tFix1).rows) := by
  decide

/-- Claim C1 (counterexample): the rebuild is not all-or-nothing.  Injecting
a store failure at the `DROP TABLE` step — after the shadow table was
created — leaves the store with BOTH the original table and the shadow
`t_new` present: the error is only printed, no rollback is issued, so the
store is not in its pre-mutation state and the shadow table is not absent. -/
theorem rebuild_fault_leaves_shadow_cex :
    modify_table_drop dbFix "t" "name" (fun i => i == 1) =
      .rbErr [tFix, ⟨"t_new", [⟨"id", "INT", false⟩], [[.int 1], [.int 2]]⟩]
        .parseError ∧
    (findTable?
      (modify_table_drop dbFix "t" "name" (fun i => i == 1)).store
      "t_new").isSome = true ∧
    (modify_table_drop dbFix "t" "name" (fun i => i == 1)).store ≠ dbFix := by
  decide

/-- Helper: on the `User` store, `login` scans the rows for the first
username match and checks the stored hash against the supplied password. -/
theorem login_userDB (check : String → String → Bool)
    (rows : List (List Val)) (u p : String) :
    login check (userDB rows) u p =
      match (rows.filter (fun r => valEqB (r.getD 1 .null) (.text u))).head? with
      | none => .badLogin
      | some r =>
        if check (valText (r.getD 3 .null)) p then .okLogin else .badLogin := rfl

/-- Claim C9: login failure is uniform.  For a request whose username has a
stored row but whose password fails the hash check, and a request whose
username matches no row, the observable responses are identical — status
401 with the same error body, revealing nothing about which field was
wrong; a request whose password passes the check against the stored hash
succeeds with 200. -/
theorem login_uniform_failure (check : String → String → Bool)
    (rows : List (List Val)) (u₁ p₁ u₂ p₂ u₃ p₃ : String) (r r' : List Val)
    (h1 : (rows.filter (fun x => valEqB (x.getD 1 .null) (.text u₁))).head? = some r)
    (h1b : check (valText (r.getD 3 .null)) p₁ = false)
    (h2 : rows.filter (fun x => valEqB (x.getD 1 .null) (.text u₂)) = [])
    (h3 : (rows.filter (fun x => valEqB (x.getD 1 .null) (.text u₃))).head? = some r')
    (h3b : check (valText (r'.getD 3 .null)) p₃ = true) :
    loginResponse (login check (userDB rows) u₁ p₁) =
      (401, "Invalid username or password") ∧
    loginResponse (login check (userDB rows) u₂ p₂) =
      (401, "Invalid username or password") ∧
    loginResponse (login check (userDB rows) u₁ p₁) =
      loginResponse (login check (userDB rows) u₂ p₂) ∧
    loginResponse (login check (userDB rows) u₃ p₃) = (200, "Login successful") := by
  rw [login_userDB, login_userDB, login_userDB, h1, h2, h3]
  simp only [List.head?_nil, h1b, h3b]
  exact ⟨rfl, rfl, rfl, rfl⟩

/-- Witness for C9 at a concrete store, hash checker and request triple. -/
theorem login_uniform_failure_witness :
    loginResponse (login checkFix (userDB [aliceRow]) "alice" "wrong") =
      (401, "Invalid username or password") ∧
    loginResponse (login checkFix (userDB [aliceRow]) "nobody" "pw") =
      (401, "Invalid username or password") ∧
    loginResponse (login checkFix (userDB [aliceRow]) "alice" "wrong") =
      loginResponse (login checkFix (userDB [aliceRow]) "nobody" "pw") ∧
    loginResponse (login checkFix (userDB [aliceRow]) "alice" "pw") =
      (200, "Login successful") :=
  login_uniform_failure checkFix [aliceRow] "alice" "wrong" "nobody" "pw"
    "alice" "pw" aliceRow aliceRow (by decide) (by decide) (by decide)
    (by decide) (by decide)

/-- Helper: case-insensitive identifier equality is reflexive. -/
theorem lowerEq_refl (s : String) : lowerEq s s = true := by
  simp [lowerEq]

/-- Helper: the shadow name `t_new` never matches `t` (it is four
characters longer). -/
theorem lowerEq_shadow_ne (t : String) : lowerEq (t ++ "_new") t = false := by
  apply beq_eq_false_iff_ne.mpr
  intro h
  have hlen := congrArg List.length h
  simp [String.data_append] at hlen

/-- Helper: a table lookup fails exactly when every table's name differs. -/
theorem findTable?_eq_none_iff (db : DB) (t : String) :
    findTable? db t = none ↔ ∀ tb ∈ db, lowerEq tb.name t = false := by
  simp [findTable?, List.find?_eq_none]

/-- Helper: table lookup distributes over database append. -/
theorem findTable?_append (db₁ db₂ : DB) (t : String) :
    findTable? (db₁ ++ db₂) t = (findTable? db₁ t).or (findTable? db₂ t) :=
  List.find?_append

/-- Helper: the `CREATE TABLE t_new AS SELECT items FROM t` step, when `t`
exists, `t_new` does not, and the select list is non-empty, fully
resolvable and duplicate-free: the shadow table is appended. -/
theorem createAsSelect_ok (db : DB) (t : String) (items : List String)
    (tb : Table)
    (hfind : findTable? db t = some tb)
    (hshadow : findTable? db (t ++ "_new") = none)
    (hne : items ≠ [])
    (hres : ∀ s ∈ items, (resolveItem tb.cols s).isSome)
    (hnd : ((items.filterMap (resolveItem tb.cols)).map selItemName).Pairwise
      (fun a b => lowerEq a b = false)) :
    createAsSelect db (t ++ "_new") items t =
      .ok (db ++ [⟨t ++ "_new", projCols tb.cols items,
        projRows tb.cols items tb.rows⟩]) := by
  have hre : items.find? (fun s => (resolveItem tb.cols s).isNone) = none := by
    apply List.find?_eq_none.mpr
    intro s hs
    have := hres s hs
    cases hr : resolveItem tb.cols s with
    | none => rw [hr] at this; exact absurd this (by decide)
    | some v => simp [hr]
  unfold createAsSelect
  rw [hshadow, hfind]
  simp only [Option.isSome_none, Bool.false_eq_true, if_false, if_neg hne, hre]
  rw [if_pos hnd]
  rfl

/-- Helper: dropping `t` from `db ++ [shadow]` removes exactly the tables
spelt like `t` and keeps the shadow. -/
theorem dropTable_append_shadow (db : DB) (t : String) (tb sh : Table)
    (hfind : findTable? db t = some tb)
    (hname : sh.name = t ++ "_new") :
    dropTable (db ++ [sh]) t = .ok (dbWithout db t ++ [sh]) := by
  unfold dropTable
  rw [findTable?_append, hfind]
  simp only [Option.or_some, Option.isSome_some, if_true, List.filter_append]
  unfold dbWithout
  congr 1
  simp [List.filter_cons, hname, lowerEq_shadow_ne]

/-- Helper: renaming the shadow back to `t` when no surviving table is
spelt like `t` or like `t_new`. -/
theorem alterRename_shadow (dbF : DB) (t : String) (sh : Table)
    (hname : sh.name = t ++ "_new")
    (hNotShadow : ∀ x ∈ dbF, lowerEq x.name (t ++ "_new") = false)
    (hNotT : ∀ x ∈ dbF, lowerEq x.name t = false) :
    alterRename (dbF ++ [sh]) (t ++ "_new") t =
      .ok (dbF ++ [{ sh with name := t }]) := by
  have hf1 : findTable? (dbF ++ [sh]) (t ++ "_new") = some sh := by
    rw [findTable?_append, (findTable?_eq_none_iff dbF (t ++ "_new")).mpr hNotShadow]
    simp [findTable?, hname, lowerEq_refl]
  have hf2 : findTable? (dbF ++ [sh]) t = none := by
    rw [findTable?_append, (findTable?_eq_none_iff dbF t).mpr hNotT]
    simp [findTable?, hname, lowerEq_shadow_ne]
  have h1 : List.map
      (fun x => if lowerEq x.name (t ++ "_new") = true then { x with name := t } else x)
      dbF = List.map id dbF :=
    List.map_congr_left (fun x hx => by rw [hNotShadow x hx]; simp)
  rw [List.map_id] at h1
  unfold alterRename
  rw [hf1, hf2]
  simp only [Option.isNone_some, Bool.false_eq_true, if_false,
    Option.isSome_none, replaceTable, List.map_append, h1]
  simp [hname, lowerEq_refl]

/-- Helper: under the same conditions as `createAsSelect_ok`, the full
three-statement rebuild with no faults commits and replaces `t` by the
projected table (appended at the end of the catalog). -/
theorem rebuild_noFaults_ok (db : DB) (t : String) (items : List String)
    (tb : Table)
    (hfind : findTable? db t = some tb)
    (hshadow : findTable? db (t ++ "_new") = none)
    (hne : items ≠ [])
    (hres : ∀ s ∈ items, (resolveItem tb.cols s).isSome)
    (hnd : ((items.filterMap (resolveItem tb.cols)).map selItemName).Pairwise
      (fun a b => lowerEq a b = false)) :
    rebuild db t items noFaults =
      .rbOk (dbWithout db t ++
        [⟨t, projCols tb.cols items, projRows tb.cols items tb.rows⟩]) := by
  have hsh : ∀ x ∈ dbWithout db t, lowerEq x.name (t ++ "_new") = false := by
    intro x hx
    exact (findTable?_eq_none_iff db (t ++ "_new")).mp hshadow x
      (List.mem_of_mem_filter hx)
  have hT : ∀ x ∈ dbWithout db t, lowerEq x.name t = false := by
    intro x hx
    have := List.of_mem_filter hx
    simpa using this
  unfold rebuild execStmt
  simp only [noFaults, Bool.false_eq_true, if_false]
  rw [createAsSelect_ok db t items tb hfind hshadow hne hres hnd]
  dsimp only
  rw [dropTable_append_shadow db t tb _ hfind rfl]
  dsimp only
  rw [alterRename_shadow (dbWithout db t) t _ rfl hsh hT]

/-- Helper: a fault injected at the `CREATE` step leaves the store in its
pre-mutation state. -/
theorem rebuild_fault_create (db : DB) (t : String) (items : List String)
    (f : Nat → Bool) (h0 : f 0 = true) :
    rebuild db t items f = .rbErr db .parseError := by
  unfold rebuild execStmt
  rw [h0]
  rfl

/-- Helper: a fault injected at the `DROP` step — after the shadow was
created — leaves BOTH the original table and the shadow behind. -/
theorem rebuild_fault_drop (db : DB) (t : String) (items : List String)
    (tb : Table) (f : Nat → Bool)
    (hfind : findTable? db t = some tb)
    (hshadow : findTable? db (t ++ "_new") = none)
    (hne : items ≠ [])
    (hres : ∀ s ∈ items, (resolveItem tb.cols s).isSome)
    (hnd : ((items.filterMap (resolveItem tb.cols)).map selItemName).Pairwise
      (fun a b => lowerEq a b = false))
    (h0 : f 0 = false) (h1 : f 1 = true) :
    rebuild db t items f =
      .rbErr (db ++ [⟨t ++ "_new", projCols tb.cols items,
        projRows tb.cols items tb.rows⟩]) .parseError := by
  unfold rebuild execStmt
  simp only [h0, h1, Bool.false_eq_true, if_false, if_true]
  rw [createAsSelect_ok db t items tb hfind hshadow hne hres hnd]

/-- Helper: a fault injected at the final `RENAME` step leaves the original
table dropped, with the data surviving only in the shadow `t_new`. -/
theorem rebuild_fault_rename (db : DB) (t : String) (items : List String)
    (tb : Table) (f : Nat → Bool)
    (hfind : findTable? db t = some tb)
    (hshadow : findTable? db (t ++ "_new") = none)
    (hne : items ≠ [])
    (hres : ∀ s ∈ items, (resolveItem tb.cols s).isSome)
    (hnd : ((items.filterMap (resolveItem tb.cols)).map selItemName).Pairwise
      (fun a b => lowerEq a b = false))
    (h0 : f 0 = false) (h1 : f 1 = false) (h2 : f 2 = true) :
    rebuild db t items f =
      .rbErr (dbWithout db t ++ [⟨t ++ "_new", projCols tb.cols items,
        projRows tb.cols items tb.rows⟩]) .parseError := by
  unfold rebuild execStmt
  simp only [h0, h1, h2, Bool.false_eq_true, if_false, if_true]
  rw [createAsSelect_ok db t items tb hfind hshadow hne hres hnd]
  dsimp only
  rw [dropTable_append_shadow db t tb _ hfind rfl]

/-- Helper: in a duplicate-free column list, looking up a column's own name
finds that column. -/
theorem colIdx?_self (cols : List Col) (c d : Col)
    (hnd : cols.Pairwise (fun a b => lowerEq a.name b.name = false))
    (hc : c ∈ cols) :
    ∃ i, colIdx? cols c.name = some i ∧ cols.getD i d = c := by
  induction cols with
  | nil => cases hc
  | cons col rest ih =>
    rcases List.mem_cons.mp hc with h | h
    · subst h
      exact ⟨0, by simp [colIdx?, lowerEq_refl], rfl⟩
    · have hne : lowerEq col.name c.name = false :=
        (List.pairwise_cons.mp hnd).1 c h
      obtain ⟨i, hi, hg⟩ := ih (List.pairwise_cons.mp hnd).2 h
      exact ⟨i + 1, by simp [colIdx?, hne, hi], hg⟩

/-- Helper: resolving the exact name of a column of a duplicate-free column
list yields exactly that column. -/
theorem resolveItem_self (cols : List Col) (c : Col)
    (hnd : cols.Pairwise (fun a b => lowerEq a.name b.name = false))
    (hc : c ∈ cols) :
    ∃ i, resolveItem cols c.name = some (.colRef i c) := by
  obtain ⟨i, hi, hg⟩ := colIdx?_self cols c ⟨"", "", false⟩ hnd hc
  refine ⟨i, ?_⟩
  rw [List.getD_eq_getElem?_getD] at hg
  simp [resolveItem, hi, hg]

/-- Helper: a select list made of genuine column names of a duplicate-free
column list resolves completely and projects to the same name list. -/
theorem proj_names_self (cols : List Col)
    (hnd : cols.Pairwise (fun a b => lowerEq a.name b.name = false))
    (items : List String)
    (hsub : ∀ s ∈ items, ∃ c ∈ cols, c.name = s) :
    ((items.filterMap (resolveItem cols)).map selItemName) = items ∧
    ∀ s ∈ items, (resolveItem cols s).isSome := by
  induction items with
  | nil => exact ⟨rfl, by simp⟩
  | cons s rest ih =>
    obtain ⟨c, hcmem, hcname⟩ := hsub s (List.mem_cons_self s rest)
    obtain ⟨hproj, hres⟩ := ih (fun x hx => hsub x (List.mem_cons_of_mem s hx))
    subst hcname
    obtain ⟨i, hres1⟩ := resolveItem_self cols c hnd hcmem
    constructor
    · simp [List.filterMap_cons, hres1, selItemName, hproj]
    · intro x hx
      rcases List.mem_cons.mp hx with h | h
      · subst h; simp [hres1]
      · exact hres x h

/-- Helper: every column of a `CREATE TABLE ... AS SELECT` result table has
its primary-key flag cleared. -/
theorem projCols_pk_false (cols : List Col) (items : List String) :
    ∀ c ∈ projCols cols items, c.pk = false := by
  intro c hc
  unfold projCols at hc
  obtain ⟨s, _, hs⟩ := List.mem_map.mp hc
  cases s <;> rw [← hs]

/-- Claim C1 (amended): rebuild-pattern mutations are NOT all-or-nothing.
For a drop-column rebuild whose projection is well-formed, a store failure
injected at the `CREATE` step leaves the store in its pre-mutation state,
but a failure at the `DROP` step — between shadow-table creation and the
final rename — leaves BOTH the original table and the shadow `t_new`
present, and a failure at the final `RENAME` leaves the original table
dropped with the data only in `t_new`: no rollback is issued, the error is
merely printed, and the partially-executed statements persist. -/
theorem modify_table_drop_not_atomic (db : DB) (t c : String) (tb : Table)
    (f : Nat → Bool)
    (hfind : findTable? db t = some tb)
    (hshadow : findTable? db (t ++ "_new") = none)
    (hne : (tb.cols.map (·.name)).filter (fun x => x ≠ c) ≠ [])
    (hres : ∀ s ∈ (tb.cols.map (·.name)).filter (fun x => x ≠ c),
      (resolveItem tb.cols s).isSome)
    (hnd : (((((tb.cols.map (·.name)).filter (fun x => x ≠ c))).filterMap
      (resolveItem tb.cols)).map selItemName).Pairwise
      (fun a b => lowerEq a b = false)) :
    (f 0 = true → modify_table_drop db t c f = .rbErr db .parseError) ∧
    (f 0 = false → f 1 = true →
      modify_table_drop db t c f =
        .rbErr (db ++ [⟨t ++ "_new",
          projCols tb.cols ((tb.cols.map (·.name)).filter (fun x => x ≠ c)),
          projRows tb.cols ((tb.cols.map (·.name)).filter (fun x => x ≠ c))
            tb.rows⟩]) .parseError ∧
      (findTable? (modify_table_drop db t c f).store (t ++ "_new")).isSome = true ∧
      (findTable? (modify_table_drop db t c f).store t).isSome = true) ∧
    (f 0 = false → f 1 = false → f 2 = true →
      modify_table_drop db t c f =
        .rbErr (dbWithout db t ++ [⟨t ++ "_new",
          projCols tb.cols ((tb.cols.map (·.name)).filter (fun x => x ≠ c)),
          projRows tb.cols ((tb.cols.map (·.name)).filter (fun x => x ≠ c))
            tb.rows⟩]) .parseError ∧
      (findTable? (modify_table_drop db t c f).store (t ++ "_new")).isSome = true ∧
      findTable? (modify_table_drop db t c f).store t = none) := by
  have hitems : ((pragmaCols db t).map (·.name)).filter (fun x => x ≠ c) =
      (tb.cols.map (·.name)).filter (fun x => x ≠ c) := by
    unfold pragmaCols
    rw [hfind]
  refine ⟨?_, ?_, ?_⟩
  · intro h0
    unfold modify_table_drop
    rw [hitems]
    exact rebuild_fault_create db t _ f h0
  · intro h0 h1
    have hr : modify_table_drop db t c f =
        .rbErr (db ++ [⟨t ++ "_new",
          projCols tb.cols ((tb.cols.map (·.name)).filter (fun x => x ≠ c)),
          projRows tb.cols ((tb.cols.map (·.name)).filter (fun x => x ≠ c))
            tb.rows⟩]) .parseError := by
      unfold modify_table_drop
      rw [hitems]
      exact rebuild_fault_drop db t _ tb f hfind hshadow hne hres hnd h0 h1
    refine ⟨hr, ?_, ?_⟩
    · rw [hr]
      unfold RebuildOut.store
      rw [findTable?_append, hshadow]
      simp [findTable?, lowerEq_refl]
    · rw [hr]
      unfold RebuildOut.store
      rw [findTable?_append, hfind]
      simp
  · intro h0 h1 h2
    have hr : modify_table_drop db t c f =
        .rbErr (dbWithout db t ++ [⟨t ++ "_new",
          projCols tb.cols ((tb.cols.map (·.name)).filter (fun x => x ≠ c)),
          projRows tb.cols ((tb.cols.map (·.name)).filter (fun x => x ≠ c))
            tb.rows⟩]) .parseError := by
      unfold modify_table_drop
      rw [hitems]
      exact rebuild_fault_rename db t _ tb f hfind hshadow hne hres hnd h0 h1 h2
    refine ⟨hr, ?_, ?_⟩
    · rw [hr]
      unfold RebuildOut.store
      rw [findTable?_append]
      have : findTable? (dbWithout db t) (t ++ "_new") = none := by
        apply (findTable?_eq_none_iff _ _).mpr
        intro x hx
        exact (findTable?_eq_none_iff db (t ++ "_new")).mp hshadow x
          (List.mem_of_mem_filter hx)
      rw [this]
      simp [findTable?, lowerEq_refl]
    · rw [hr]
      unfold RebuildOut.store
      rw [findTable?_append]
      have h3 : findTable? (dbWithout db t) t = none := by
        apply (findTable?_eq_none_iff _ _).mpr
        intro x hx
        simpa using List.of_mem_filter hx
      rw [h3]
      simp [findTable?, lowerEq_shadow_ne]

/-- Witness for C1 (amended) at the concrete fixture: failure injected at
the `DROP` step of dropping column `name` leaves the shadow present. -/
theorem modify_table_drop_not_atomic_witness :
    (findTable? (modify_table_drop dbFix "t" "name" (fun i => i == 1)).store
      ("t" ++ "_new")).isSome = true ∧
    (findTable? (modify_table_drop dbFix "t" "name" (fun i => i == 1)).store
      "t").isSome = true :=
  ((modify_table_drop_not_atomic dbFix "t" "name" tFix (fun i => i == 1)
    (by decide) (by decide) (by decide) (by decide) (by decide)).2.1
    rfl rfl).2

/-- Helper: the rebuilt table's column names are the projected item
names. -/
theorem projCols_names (cols : List Col) (items : List String) :
    (projCols cols items).map (·.name) =
      (items.filterMap (resolveItem cols)).map selItemName := by
  unfold projCols
  rw [List.map_map]
  exact List.map_congr_left (fun s _ => by cases s <;> rfl)

/-- Helper: duplicate-freedom of column names transfers to any sublist of
the name list. -/
theorem names_filter_pairwise (cols : List Col)
    (hnd : cols.Pairwise (fun a b => lowerEq a.name b.name = false))
    (p : String → Bool) :
    ((cols.map (·.name)).filter p).Pairwise (fun a b => lowerEq a b = false) := by
  have h1 : ((cols.map (·.name)).filter p).Sublist (cols.map (·.name)) :=
    List.filter_sublist _
  have h2 : (cols.map (·.name)).Pairwise (fun a b => lowerEq a b = false) :=
    (List.pairwise_map).mpr hnd
  exact h2.sublist h1

/-- Claim C4 (amended): `DropColumn` performs no validation.  When the
projection is non-empty the rebuild succeeds whether or not the named
column exists — an absent name yields a full-copy rebuild rather than
`ColumnNotFound`, and dropping the last non-primary-key column succeeds
rather than failing with `LastColumn` (only the former key column
remains, itself stripped of its primary-key flag).  The single failing
case is an empty projection, which fails with a store-level SQL error and
leaves the store unchanged. -/
theorem modify_table_drop_unvalidated (db : DB) (t c : String) (tb : Table)
    (hfind : findTable? db t = some tb)
    (hshadow : findTable? db (t ++ "_new") = none)
    (hnd : tb.cols.Pairwise (fun a b => lowerEq a.name b.name = false)) :
    ((tb.cols.map (·.name)).filter (fun x => x ≠ c) = [] →
      modify_table_drop db t c noFaults = .rbErr db .parseError) ∧
    ((tb.cols.map (·.name)).filter (fun x => x ≠ c) ≠ [] →
      modify_table_drop db t c noFaults =
        .rbOk (dbWithout db t ++ [⟨t,
          projCols tb.cols ((tb.cols.map (·.name)).filter (fun x => x ≠ c)),
          projRows tb.cols ((tb.cols.map (·.name)).filter (fun x => x ≠ c))
            tb.rows⟩]) ∧
      (projCols tb.cols ((tb.cols.map (·.name)).filter (fun x => x ≠ c))).map
        (·.name) = (tb.cols.map (·.name)).filter (fun x => x ≠ c) ∧
      ∀ col ∈ projCols tb.cols
        ((tb.cols.map (·.name)).filter (fun x => x ≠ c)), col.pk = false) := by
  have hitems : ((pragmaCols db t).map (·.name)).filter (fun x => x ≠ c) =
      (tb.cols.map (·.name)).filter (fun x => x ≠ c) := by
    unfold pragmaCols
    rw [hfind]
  have hsub : ∀ s ∈ (tb.cols.map (·.name)).filter (fun x => x ≠ c),
      ∃ col ∈ tb.cols, col.name = s := by
    intro s hs
    obtain ⟨col, hcol, hname⟩ := List.mem_map.mp (List.mem_of_mem_filter hs)
    exact ⟨col, hcol, hname⟩
  obtain ⟨hproj, hres⟩ :=
    proj_names_self tb.cols hnd ((tb.cols.map (·.name)).filter (fun x => x ≠ c)) hsub
  have hpw : ((((tb.cols.map (·.name)).filter (fun x => x ≠ c)).filterMap
      (resolveItem tb.cols)).map selItemName).Pairwise
      (fun a b => lowerEq a b = false) := by
    rw [hproj]
    exact names_filter_pairwise tb.cols hnd _
  constructor
  · intro hempty
    unfold modify_table_drop
    rw [hitems, hempty]
    show rebuild db t [] noFaults = RebuildOut.rbErr db DBErr.parseError
    unfold rebuild execStmt
    simp only [noFaults, Bool.false_eq_true, if_false]
    unfold createAsSelect
    rw [hshadow, hfind]
    simp
  · intro hne
    refine ⟨?_, by rw [projCols_names, hproj], projCols_pk_false _ _⟩
    unfold modify_table_drop
    rw [hitems]
    exact rebuild_noFaults_ok db t _ tb hfind hshadow hne hres hpw

/-- Witness for C4 (amended) at the concrete fixture: dropping the absent
column `zzz` succeeds, and dropping the last non-key column `name`
succeeds. -/
theorem modify_table_drop_unvalidated_witness :
    modify_table_drop dbFix "t" "zzz" noFaults =
      .rbOk (dbWithout dbFix "t" ++ [⟨"t",
        projCols tFix.cols ((tFix.cols.map (·.name)).filter (fun x => x ≠ "zzz")),
        projRows tFix.cols ((tFix.cols.map (·.name)).filter (fun x => x ≠ "zzz"))
          tFix.rows⟩]) ∧
    modify_table_drop dbFix "t" "name" noFaults =
      .rbOk (dbWithout dbFix "t" ++ [⟨"t",
        projCols tFix.cols ((tFix.cols.map (·.name)).filter (fun x => x ≠ "name")),
        projRows tFix.cols ((tFix.cols.map (·.name)).filter (fun x => x ≠ "name"))
          tFix.rows⟩]) :=
  ⟨((modify_table_drop_unvalidated dbFix "t" "zzz" tFix (by decide) (by decide)
      (by decide)).2 (by decide)).1,
   ((modify_table_drop_unvalidated dbFix "t" "name" tFix (by decide) (by decide)
      (by decide)).2 (by decide)).1⟩

/-- Helper: substituting an unresolvable new name for an occurring old name
makes the new name the first unresolvable select item. -/
theorem find?_subst_unresolvable (cols : List Col) (old new : String)
    (hnew : resolveItem cols new = none) :
    ∀ names : List String, old ∈ names →
    (∀ s ∈ names, s ≠ old → (resolveItem cols s).isSome) →
    ((names.map (fun x => if x = old then new else x)).find?
      (fun s => (resolveItem cols s).isNone)) = some new := by
  intro names
  induction names with
  | nil => intro h; cases h
  | cons x rest ih =>
    intro hold hres
    by_cases hx : x = old
    · subst hx
      simp [hnew]
    · simp only [List.map_cons, if_neg hx]
      rw [List.find?_cons_of_neg]
      · apply ih
        · rcases List.mem_cons.mp hold with h | h
          · exact absurd h.symm hx
          · exact h
        · intro s hs hsne
          exact hres s (List.mem_cons_of_mem x hs) hsne
      · have hsome := hres x (List.mem_cons_self x rest) hx
        cases hr : resolveItem cols x with
        | none => rw [hr] at hsome; exact absurd hsome (by decide)
        | some v => simp [hr]

/-- Helper: inversion of a successful `CREATE TABLE ... AS SELECT`. -/
theorem createAsSelect_ok_inv (db : DB) (n : String) (items : List String)
    (src : String) (db' : DB)
    (h : createAsSelect db n items src = .ok db') :
    ∃ tb, findTable? db src = some tb ∧ findTable? db n = none ∧
      db' = db ++
        [⟨n, projCols tb.cols items, projRows tb.cols items tb.rows⟩] := by
  unfold createAsSelect at h
  split at h
  · exact absurd h (by simp)
  next hex =>
    have hnone : findTable? db n = none := by
      cases hfn : findTable? db n with
      | none => rfl
      | some v =>
        rw [hfn] at hex
        exact absurd (show (some v).isSome = true from rfl) hex
    split at h
    · exact absurd h (by simp)
    next tb htb =>
      split at h
      · exact absurd h (by simp)
      split at h
      next s hfound => exact absurd h (by simp)
      next hnf =>
        dsimp only at h
        split at h
        · exact ⟨tb, htb, hnone, (Except.ok.inj h).symm⟩
        · exact absurd h (by simp)

/-- Helper: inversion of a successful `DROP TABLE`. -/
theorem dropTable_ok_inv (db : DB) (t : String) (db' : DB)
    (h : dropTable db t = .ok db') :
    db' = db.filter (fun x => !(lowerEq x.name t)) := by
  unfold dropTable at h
  split at h
  · exact (Except.ok.inj h).symm
  · exact absurd h (by simp)

/-- Helper: inversion of a successful `ALTER TABLE ... RENAME TO`. -/
theorem alterRename_ok_inv (db : DB) (o n : String) (db' : DB)
    (h : alterRename db o n = .ok db') :
    db' = replaceTable db o (fun tb => { tb with name := n }) := by
  unfold alterRename at h
  split at h
  · exact absurd h (by simp)
  split at h
  · exact absurd h (by simp)
  · exact (Except.ok.inj h).symm

/-- Helper: inversion of a fully successful rebuild: the source table
existed, and every table spelt like `t` in the result store is the renamed
shadow — its columns are the projection columns (all with the primary-key
flag cleared) and its rows the projected rows. -/
theorem rebuild_ok_inv (db : DB) (t : String) (items : List String)
    (f : Nat → Bool) (db' : DB)
    (h : rebuild db t items f = .rbOk db') :
    ∃ tb, findTable? db t = some tb ∧
      ∀ tb', findTable? db' t = some tb' →
        tb'.cols = projCols tb.cols items ∧
        tb'.rows = projRows tb.cols items tb.rows := by
  unfold rebuild execStmt at h
  split at h
  next e heq => exact absurd h (by simp)
  next db1 heq1 =>
  split at h
  next e heq => exact absurd h (by simp)
  next db2 heq2 =>
  split at h
  next e heq => exact absurd h (by simp)
  next db3 heq3 =>
  have hdb' : db' = db3 := (RebuildOut.rbOk.inj h).symm
  by_cases hf0 : f 0 = true
  · rw [if_pos hf0] at heq1; exact absurd heq1 (by simp)
  rw [if_neg hf0] at heq1
  obtain ⟨tb, htb, hnone, hdb1⟩ := createAsSelect_ok_inv db _ items t db1 heq1
  by_cases hf1 : f 1 = true
  · rw [if_pos hf1] at heq2; exact absurd heq2 (by simp)
  rw [if_neg hf1] at heq2
  have hdb2 := dropTable_ok_inv db1 t db2 heq2
  by_cases hf2 : f 2 = true
  · rw [if_pos hf2] at heq3; exact absurd heq3 (by simp)
  rw [if_neg hf2] at heq3
  have hdb3 := alterRename_ok_inv db2 _ t db3 heq3
  refine ⟨tb, htb, ?_⟩
  intro tb' hfind'
  have hfind'' := hfind'
  unfold findTable? at hfind''
  have hmem := List.mem_of_find?_eq_some hfind''
  have hpred0 := List.find?_some hfind''
  have hpred : lowerEq tb'.name t = true := hpred0
  rw [hdb', hdb3] at hmem
  unfold replaceTable at hmem
  obtain ⟨y, hy, hgy⟩ := List.mem_map.mp hmem
  by_cases hyy : lowerEq y.name (t ++ "_new") = true
  · rw [if_pos hyy] at hgy
    rw [hdb2] at hy
    have hy1 := List.mem_of_mem_filter hy
    rw [hdb1] at hy1
    rcases List.mem_append.mp hy1 with hyd | hys
    · have := (findTable?_eq_none_iff db (t ++ "_new")).mp hnone y hyd
      rw [this] at hyy
      exact absurd hyy (by decide)
    · have hysh := List.mem_singleton.mp hys
      rw [← hgy, hysh]
      exact ⟨rfl, rfl⟩
  · rw [if_neg hyy] at hgy
    rw [hdb2] at hy
    have := List.of_mem_filter hy
    rw [hgy] at this
    rw [hpred] at this
    exact absurd this (by decide)

/-- Claim C8 (amended): `RenameColumn` does not preserve data — it is
broken.  The rebuilt projection refers to the new column name with no
alias, so renaming an existing column to any fresh ordinary identifier
(neither an existing column nor a numeric literal) always fails with a
`no such column` store error and leaves the store completely unchanged;
and whenever the rename's rebuild does succeed (e.g. a numeric new name),
only the row COUNT is preserved — each result row is rebuilt from the
select items, not copied. -/
theorem modify_table_rename_spec (db : DB) (t old new : String) (tb : Table)
    (hfind : findTable? db t = some tb)
    (hshadow : findTable? db (t ++ "_new") = none)
    (hnd : tb.cols.Pairwise (fun a b => lowerEq a.name b.name = false))
    (hold : old ∈ tb.cols.map (·.name))
    (hnew : resolveItem tb.cols new = none) :
    modify_table_rename db t old new noFaults = .rbErr db (.noSuchColumn new) ∧
    (∀ new₂ (f : Nat → Bool) db₂,
      modify_table_rename db t old new₂ f = .rbOk db₂ →
      ∀ tb₂, findTable? db₂ t = some tb₂ →
        tb₂.rows.length = tb.rows.length) := by
  constructor
  · have hres : ∀ s ∈ tb.cols.map (·.name), s ≠ old →
        (resolveItem tb.cols s).isSome := by
      intro s hs _
      obtain ⟨col, hcol, hname⟩ := List.mem_map.mp hs
      obtain ⟨i, hi⟩ := resolveItem_self tb.cols col hnd hcol
      rw [← hname, hi]
      rfl
    have hfound := find?_subst_unresolvable tb.cols old new hnew
      (tb.cols.map (·.name)) hold hres
    unfold modify_table_rename
    have hitems : ((pragmaCols db t).map (·.name)).map
        (fun x => if x = old then new else x) =
        (tb.cols.map (·.name)).map (fun x => if x = old then new else x) := by
      unfold pragmaCols
      rw [hfind]
    rw [hitems]
    show rebuild db t _ noFaults = _
    unfold rebuild execStmt
    simp only [noFaults, Bool.false_eq_true, if_false]
    unfold createAsSelect
    rw [hshadow, hfind]
    have hne : (tb.cols.map (·.name)).map (fun x => if x = old then new else x) ≠ [] := by
      intro hnil
      rw [List.map_eq_nil_iff, List.map_eq_nil_iff] at hnil
      rw [hnil] at hold
      cases hold
    simp only [Option.isSome_none, Bool.false_eq_true, if_false, if_neg hne,
      hfound]
  · intro new₂ f db₂ hok tb₂ hfind₂
    unfold modify_table_rename at hok
    obtain ⟨tb₀, htb₀, hshape⟩ := rebuild_ok_inv db t _ f db₂ hok
    have : tb₀ = tb := by
      rw [hfind] at htb₀
      exact (Option.some.inj htb₀).symm
    subst this
    have hrows := (hshape tb₂ hfind₂).2
    rw [hrows]
    unfold projRows
    exact List.length_map _ _

/-- Witness for C8 (amended): renaming `name` to the fresh identifier
`title` on the fixture fails with `no such column: title` and changes
nothing. -/
theorem modify_table_rename_spec_witness :
    modify_table_rename dbFix "t" "name" "title" noFaults =
      .rbErr dbFix (.noSuchColumn "title") :=
  (modify_table_rename_spec dbFix "t" "name" "title" tFix (by decide)
    (by decide) (by decide) (by decide) (by decide)).1

/-- Claim C10: after any successful `RenameColumn` or `DropColumn`, the
rebuilt table — created via `CREATE TABLE ... AS SELECT`, which carries
over no constraints — has no primary-key column, so every subsequent
`update_record` or `delete_record` on that table prints the
no-primary-key error and returns without touching any row. -/
theorem rebuilt_table_loses_pk (db : DB) (t old new c : String)
    (f g : Nat → Bool) (db' : DB)
    (h : modify_table_rename db t old new f = .rbOk db' ∨
         modify_table_drop db t c g = .rbOk db') :
    (∀ tb', findTable? db' t = some tb' → ∀ col ∈ tb'.cols, col.pk = false) ∧
    (∀ pkv inputs, update_record db' t pkv inputs = (.updNoPk, db')) ∧
    (∀ pkv confirm, delete_record db' t pkv confirm = (.delNoPk, db')) := by
  have hpk : ∀ tb', findTable? db' t = some tb' →
      ∀ col ∈ tb'.cols, col.pk = false := by
    rcases h with h | h
    · unfold modify_table_rename at h
      obtain ⟨tb₀, _, hshape⟩ := rebuild_ok_inv db t _ f db' h
      intro tb' hf'
      rw [(hshape tb' hf').1]
      exact projCols_pk_false _ _
    · unfold modify_table_drop at h
      obtain ⟨tb₀, _, hshape⟩ := rebuild_ok_inv db t _ g db' h
      intro tb' hf'
      rw [(hshape tb' hf').1]
      exact projCols_pk_false _ _
  have hnopk : (pragmaCols db' t).find? (fun col => col.pk) = none := by
    unfold pragmaCols
    cases hf' : findTable? db' t with
    | none => rfl
    | some tb' =>
      apply List.find?_eq_none.mpr
      intro col hcol
      rw [hpk tb' hf' col hcol]
      decide
  refine ⟨hpk, ?_, ?_⟩
  · intro pkv inputs
    unfold update_record
    dsimp only
    rw [hnopk]
  · intro pkv confirm
    unfold delete_record
    dsimp only
    rw [hnopk]

/-- Witness for C10: after dropping the (absent) column `zzz` from the
fixture — a successful rebuild — updates and deletes fail with the
no-primary-key error. -/
theorem rebuilt_table_loses_pk_witness :
    (∀ tb', findTable?
        [⟨"t", [⟨"id", "INT", false⟩, ⟨"name", "TEXT", false⟩],
          [[Val.int 1, Val.text "x"], [Val.int 2, Val.text "y"]]⟩] "t" =
        some tb' → ∀ col ∈ tb'.cols, col.pk = false) ∧
    (∀ pkv inputs, update_record
      [⟨"t", [⟨"id", "INT", false⟩, ⟨"name", "TEXT", false⟩],
        [[Val.int 1, Val.text "x"], [Val.int 2, Val.text "y"]]⟩] "t" pkv inputs =
      (.updNoPk,
       [⟨"t", [⟨"id", "INT", false⟩, ⟨"name", "TEXT", false⟩],
         [[Val.int 1, Val.text "x"], [Val.int 2, Val.text "y"]]⟩])) ∧
    (∀ pkv confirm, delete_record
      [⟨"t", [⟨"id", "INT", false⟩, ⟨"name", "TEXT", false⟩],
        [[Val.int 1, Val.text "x"], [Val.int 2, Val.text "y"]]⟩] "t" pkv confirm =
      (.delNoPk,
       [⟨"t", [⟨"id", "INT", false⟩, ⟨"name", "TEXT", false⟩],
         [[Val.int 1, Val.text "x"], [Val.int 2, Val.text "y"]]⟩])) :=
  rebuilt_table_loses_pk dbFix "t" "name" "5" "zzz" noFaults noFaults
    [⟨"t", [⟨"id", "INT", false⟩, ⟨"name", "TEXT", false⟩],
      [[Val.int 1, Val.text "x"], [Val.int 2, Val.text "y"]]⟩]
    (Or.inr (by decide))

/-- Helper: a successful conversion run yields one value per column. -/
theorem coerceAll_length : ∀ (ps : List (Col × String)) (vs : List Val),
    coerceAll ps = some vs → vs.length = ps.length := by
  intro ps
  induction ps with
  | nil =>
    intro vs h
    simp only [coerceAll, Option.some.injEq] at h
    simp [← h]
  | cons p rest ihp =>
    intro vs h
    simp only [coerceAll] at h
    cases hc : coerceInput p.1.type p.2 with
    | none => rw [hc] at h; exact absurd h (by simp)
    | some v =>
      rw [hc] at h
      cases hr : coerceAll rest with
      | none => rw [hr] at h; exact absurd h (by simp)
      | some vs' =>
        rw [hr] at h
        simp only [Option.map] at h
        have h2 := Option.some.inj h
        rw [← h2]
        simp [ihp vs' hr]

/-- Helper: with duplicate-free column names, the name-keyed row assembly
of `INSERT` equals the positional zip of columns and values. -/
theorem row_positional (cols : List Col)
    (hnd : cols.Pairwise (fun a b => lowerEq a.name b.name = false)) :
    ∀ vals : List Val, vals.length = cols.length →
    cols.map (fun c =>
      match ((cols.map (·.name)).zip vals).find? (fun p => lowerEq p.1 c.name) with
      | some p => applyAffinity c.type p.2
      | none => Val.null) =
    (cols.zip vals).map (fun p => applyAffinity p.1.type p.2) := by
  induction cols with
  | nil => intro vals _; simp
  | cons col rest ih =>
    intro vals hlen
    cases vals with
    | nil => simp at hlen
    | cons v vrest =>
      simp only [List.map_cons, List.zip_cons_cons]
      have hhead : List.find? (fun p : String × Val => lowerEq p.1 col.name)
          ((col.name, v) :: (rest.map (·.name)).zip vrest) = some (col.name, v) :=
        List.find?_cons_of_pos _ (lowerEq_refl col.name)
      rw [hhead]
      obtain ⟨hhead, htail⟩ := List.pairwise_cons.mp hnd
      have hcongr : rest.map (fun c =>
          match ((col.name, v) :: (rest.map (·.name)).zip vrest).find?
              (fun p => lowerEq p.1 c.name) with
          | some p => applyAffinity c.type p.2
          | none => Val.null) =
          rest.map (fun c =>
          match ((rest.map (·.name)).zip vrest).find?
              (fun p => lowerEq p.1 c.name) with
          | some p => applyAffinity c.type p.2
          | none => Val.null) := by
        apply List.map_congr_left
        intro c hc
        rw [List.find?_cons_of_neg]
        intro habs
        rw [hhead c hc] at habs
        exact absurd habs (by decide)
      rw [hcongr, ih htail vrest (by simpa using hlen)]

/-- Claim C5 (amended): `insert_record` coerces each supplied value by the
column's declared type — `int(...)` for `INTEGER`, `float(...)` for
`REAL`, the raw text otherwise, an empty input becoming NULL for the
numeric types — but when a conversion is impossible the operation raises
an **uncaught** `ValueError` (a crash, not a defined `TypeMismatch`
failure) and no row is added; when every conversion succeeds the coerced
row is appended. -/
theorem insert_record_spec (db : DB) (t : String) (inputs : List String)
    (tb : Table)
    (hfind : findTable? db t = some tb)
    (hnd : tb.cols.Pairwise (fun a b => lowerEq a.name b.name = false))
    (hlen : inputs.length = tb.cols.length) :
    (coerceAll (tb.cols.zip inputs) = none →
      insert_record db t inputs = (.valueError, db)) ∧
    (∀ vals, coerceAll (tb.cols.zip inputs) = some vals →
      insert_record db t inputs = (.inserted,
        replaceTable db t (fun x => { x with rows := x.rows ++
          [(tb.cols.zip vals).map (fun p => applyAffinity p.1.type p.2)] }))) := by
  have hcols : pragmaCols db t = tb.cols := by
    unfold pragmaCols
    rw [hfind]
  constructor
  · intro hnone
    unfold insert_record
    rw [hcols]
    dsimp only
    rw [hnone]
  · intro vals hsome
    have hvlen : vals.length = tb.cols.length := by
      have h1 := coerceAll_length (tb.cols.zip inputs) vals hsome
      rw [h1, List.length_zip, hlen]
      simp
    unfold insert_record
    rw [hcols]
    dsimp only
    rw [hsome]
    dsimp only
    unfold insertInto
    rw [hfind]
    dsimp only
    have hmiss : ((tb.cols.map (·.name)).zip vals).find?
        (fun p => (colIdx? tb.cols p.1).isNone) = none := by
      apply List.find?_eq_none.mpr
      intro p hp
      obtain ⟨hp1, _⟩ := List.of_mem_zip hp
      obtain ⟨col, hcol, hname⟩ := List.mem_map.mp hp1
      obtain ⟨i, hi, _⟩ := colIdx?_self tb.cols col ⟨"", "", false⟩ hnd hcol
      rw [← hname, hi]
      simp
    rw [hmiss]
    dsimp only
    rw [row_positional tb.cols hnd vals hvlen]

/-- Witness for C5 (amended) at the concrete fixture: the bad input list
`["1", "abc"]` fails coercion and crashes; the good list `["1", "7"]`
inserts the coerced row. -/
theorem insert_record_spec_witness :
    insert_record dbFixInt "t" ["1", "abc"] = (.valueError, dbFixInt) ∧
    insert_record dbFixInt "t" ["1", "7"] = (.inserted,
      replaceTable dbFixInt "t" (fun x => { x with rows := x.rows ++
        [(tFixInt.cols.zip [Val.int 1, Val.int 7]).map
          (fun p => applyAffinity p.1.type p.2)] })) :=
  ⟨(insert_record_spec dbFixInt "t" ["1", "abc"] tFixInt (by decide) (by decide)
      (by decide)).1 (by decide),
   (insert_record_spec dbFixInt "t" ["1", "7"] tFixInt (by decide) (by decide)
      (by decide)).2 [Val.int 1, Val.int 7] (by decide)⟩

/-- Helper: replacing a uniquely-named table by an update that fixes it
leaves the store unchanged. -/
theorem replaceTable_id (db : DB) (t : String) (tb : Table)
    (huniq : ∀ x ∈ db, lowerEq x.name t = true → x = tb)
    (f : Table → Table) (hf : f tb = tb) :
    replaceTable db t f = db := by
  unfold replaceTable
  have h1 : List.map (fun x => if lowerEq x.name t = true then f x else x) db =
      List.map id db := by
    apply List.map_congr_left
    intro x hx
    by_cases hxx : lowerEq x.name t = true
    · rw [if_pos hxx, huniq x hx hxx, hf]
      rfl
    · rw [if_neg hxx]
      rfl
  rw [h1, List.map_id]

/-- Claim C6 (amended): `update_record` with a non-empty field set and a
primary-key value matching no stored row does NOT fail with
`RecordNotFound`: the `UPDATE` affects zero rows, the code commits and
reports success ("Record updated successfully"), and the table is left
unchanged. -/
theorem update_record_no_match (db : DB) (t pkValue : String)
    (inputs : List String) (tb : Table) (pkCol : Col)
    (hfind : findTable? db t = some tb)
    (huniq : ∀ x ∈ db, lowerEq x.name t = true → x = tb)
    (hpk : tb.cols.find? (fun c => c.pk) = some pkCol)
    (hnonempty : ((tb.cols.filter (fun c => c.name ≠ pkCol.name)).zip inputs).filter
      (fun p => p.2 ≠ "") ≠ [])
    (hnomatch : ∀ r ∈ tb.rows,
      bindCompare pkCol.type (r.getD ((colIdx? tb.cols pkCol.name).getD 0) .null)
        (.text pkValue) = false) :
    update_record db t pkValue inputs = (.updUpdated, db) := by
  have hcols : pragmaCols db t = tb.cols := by
    unfold pragmaCols
    rw [hfind]
  unfold update_record
  rw [hcols]
  dsimp only
  rw [hpk]
  dsimp only
  rw [if_neg hnonempty]
  have hrepl : replaceTable db t (fun x =>
      { x with rows := x.rows.map (fun r =>
          if bindCompare pkCol.type
              (r.getD ((colIdx? tb.cols pkCol.name).getD 0) .null)
              (.text pkValue) = true
          then (((tb.cols.filter (fun c => c.name ≠ pkCol.name)).zip
              inputs).filter (fun p => p.2 ≠ "")).foldl
            (fun row p =>
              match colIdx? tb.cols p.1.name with
              | some j => row.set j (applyAffinity p.1.type (Val.text p.2))
              | none => row) r
          else r) }) = db := by
    apply replaceTable_id db t tb huniq
    have hrows : tb.rows.map (fun r =>
        if bindCompare pkCol.type
            (r.getD ((colIdx? tb.cols pkCol.name).getD 0) .null)
            (.text pkValue) = true
        then (((tb.cols.filter (fun c => c.name ≠ pkCol.name)).zip
            inputs).filter (fun p => p.2 ≠ "")).foldl
          (fun row p =>
            match colIdx? tb.cols p.1.name with
            | some j => row.set j (applyAffinity p.1.type (Val.text p.2))
            | none => row) r
        else r) = List.map id tb.rows := by
      apply List.map_congr_left
      intro r hr
      rw [hnomatch r hr]
      simp
    rw [hrows, List.map_id]
  rw [hrepl]

/-- Witness for C6 (amended): on the fixture table, updating at the
unmatched key `5` reports success and changes nothing. -/
theorem update_record_no_match_witness :
    update_record dbFix "t" "5" ["z"] = (.updUpdated, dbFix) :=
  update_record_no_match dbFix "t" "5" ["z"] tFix ⟨"id", "INTEGER", true⟩
    (by decide) (by decide) (by decide) (by decide) (by decide)

/-- Helper: case-insensitive identifier equality is symmetric. -/
theorem lowerEq_symm (a b : String) : lowerEq a b = lowerEq b a := by
  unfold lowerEq
  by_cases h : a.data.map lowerChar = b.data.map lowerChar
  · rw [h]
  · rw [beq_eq_false_iff_ne.mpr h, beq_eq_false_iff_ne.mpr (Ne.symm h)]

/-- Helper: in a duplicate-free column list, two columns with matching
names are the same column. -/
theorem nodup_name_inj (cols : List Col)
    (hnd : cols.Pairwise (fun a b => lowerEq a.name b.name = false))
    (a b : Col) (ha : a ∈ cols) (hb : b ∈ cols)
    (hab : lowerEq a.name b.name = true) : a = b := by
  by_contra hne
  have hsym : Symmetric (fun x y : Col => lowerEq x.name y.name = false) := by
    intro x y hxy
    rw [lowerEq_symm]
    exact hxy
  have := (hnd.forall hsym) ha hb hne
  rw [hab] at this
  exact absurd this (by decide)

/-- Helper: replacing a table by a name-preserving update commutes with
looking the table up. -/
theorem findTable?_replaceTable (db : DB) (t : String) (tb : Table)
    (f : Table → Table) (hname : ∀ x, (f x).name = x.name) :
    findTable? db t = some tb →
    findTable? (replaceTable db t f) t = some (f tb) := by
  induction db with
  | nil => intro h; simp [findTable?] at h
  | cons x rest ih =>
    intro h
    unfold findTable? at h ⊢
    unfold replaceTable
    simp only [List.map_cons]
    by_cases hx : lowerEq x.name t = true
    · have hcons : List.find? (fun tb => lowerEq tb.name t) (x :: rest) =
          some x := List.find?_cons_of_pos _ hx
      rw [hcons] at h
      have h2 := Option.some.inj h
      subst h2
      rw [if_pos hx]
      have hcons2 : List.find? (fun tb => lowerEq tb.name t)
          (f x :: List.map (fun tb =>
            if lowerEq tb.name t = true then f tb else tb) rest) =
          some (f x) :=
        List.find?_cons_of_pos _ (by rw [hname]; exact hx)
      exact hcons2
    · have hcons : List.find? (fun tb => lowerEq tb.name t) (x :: rest) =
          List.find? (fun tb => lowerEq tb.name t) rest :=
        List.find?_cons_of_neg _ hx
      rw [hcons] at h
      rw [if_neg hx]
      have hcons2 : List.find? (fun tb => lowerEq tb.name t)
          (x :: List.map (fun tb =>
            if lowerEq tb.name t = true then f tb else tb) rest) =
          List.find? (fun tb => lowerEq tb.name t)
            (List.map (fun tb =>
              if lowerEq tb.name t = true then f tb else tb) rest) :=
        List.find?_cons_of_neg _ hx
      rw [hcons2]
      exact ih h

/-- Helper: the `SET` fold of `update_record` leaves every column outside
the change set untouched. -/
theorem foldl_set_getD_untouched (cols : List Col) (j : Nat)
    (hnd : cols.Pairwise (fun a b => lowerEq a.name b.name = false))
    (hj : j < cols.length) :
    ∀ (ups : List (Col × String)) (r : List Val),
    (∀ p ∈ ups, p.1 ∈ cols) →
    (∀ p ∈ ups, (cols.getD j ⟨"", "", false⟩).name ≠ p.1.name) →
    (ups.foldl (fun row p =>
      match colIdx? cols p.1.name with
      | some j' => row.set j' (applyAffinity p.1.type (Val.text p.2))
      | none => row) r).getD j .null = r.getD j .null := by
  intro ups
  induction ups with
  | nil => intro r _ _; rfl
  | cons p rest ihp =>
    intro r hmem hname
    rw [List.foldl_cons]
    rw [ihp _ (fun q hq => hmem q (List.mem_cons_of_mem p hq))
      (fun q hq => hname q (List.mem_cons_of_mem p hq))]
    obtain ⟨i, hi, hgi⟩ := colIdx?_self cols p.1 ⟨"", "", false⟩ hnd
      (hmem p (List.mem_cons_self p rest))
    rw [hi]
    have hij : i ≠ j := by
      intro hij
      subst hij
      rw [hgi] at hname
      exact hname p (List.mem_cons_self p rest) rfl
    rw [List.getD_eq_getElem?_getD, List.getD_eq_getElem?_getD,
      List.getElem?_set_ne hij]

/-- Helper: explicit form of a non-trivial `update_record`. -/
theorem update_record_eq (db : DB) (t pkValue : String)
    (inputs : List String) (tb : Table) (pkCol : Col)
    (hfind : findTable? db t = some tb)
    (hpk : tb.cols.find? (fun c => c.pk) = some pkCol)
    (hne : ((tb.cols.filter (fun c => c.name ≠ pkCol.name)).zip inputs).filter
      (fun p => p.2 ≠ "") ≠ []) :
    update_record db t pkValue inputs = (.updUpdated,
      replaceTable db t (fun x =>
        { x with rows := x.rows.map (fun r =>
            if bindCompare pkCol.type
                (r.getD ((colIdx? tb.cols pkCol.name).getD 0) .null)
                (.text pkValue) = true
            then (((tb.cols.filter (fun c => c.name ≠ pkCol.name)).zip
                inputs).filter (fun p => p.2 ≠ "")).foldl
              (fun row p =>
                match colIdx? tb.cols p.1.name with
                | some j => row.set j (applyAffinity p.1.type (Val.text p.2))
                | none => row) r
            else r) })) := by
  have hcols : pragmaCols db t = tb.cols := by
    unfold pragmaCols
    rw [hfind]
  unfold update_record
  rw [hcols]
  dsimp only
  rw [hpk]
  dsimp only
  rw [if_neg hne]

/-- Claim C7 (amended): sparse-patch frame property of `update_record`.
Every column whose name is outside the change set — in particular every
column whose input was left empty — keeps its pre-update value in every
row, matched or not, and the row count is unchanged; but "set to the empty
value" is NOT expressible: an empty input is interpreted as omission, so
when every input is empty the handler reports `No changes made` and the
store is untouched — omission and empty are conflated. -/
theorem update_record_frame (db : DB) (t pkValue : String)
    (inputs : List String) (tb : Table) (pkCol : Col)
    (hfind : findTable? db t = some tb)
    (hpk : tb.cols.find? (fun c => c.pk) = some pkCol)
    (hnd : tb.cols.Pairwise (fun a b => lowerEq a.name b.name = false)) :
    (((tb.cols.filter (fun c => c.name ≠ pkCol.name)).zip inputs).filter
        (fun p => p.2 ≠ "") = [] →
      update_record db t pkValue inputs = (.updNoChanges, db)) ∧
    (∀ tb', findTable? (update_record db t pkValue inputs).2 t = some tb' →
      tb'.rows.length = tb.rows.length ∧
      ∀ i j, j < tb.cols.length →
        (∀ p ∈ ((tb.cols.filter (fun c => c.name ≠ pkCol.name)).zip
            inputs).filter (fun p => p.2 ≠ ""),
          (tb.cols.getD j ⟨"", "", false⟩).name ≠ p.1.name) →
        (tb'.rows.getD i []).getD j .null =
          (tb.rows.getD i []).getD j .null) := by
  have hcols : pragmaCols db t = tb.cols := by
    unfold pragmaCols
    rw [hfind]
  have hempty : ((tb.cols.filter (fun c => c.name ≠ pkCol.name)).zip
      inputs).filter (fun p => p.2 ≠ "") = [] →
      update_record db t pkValue inputs = (.updNoChanges, db) := by
    intro hemp
    unfold update_record
    rw [hcols]
    dsimp only
    rw [hpk]
    dsimp only
    rw [if_pos hemp]
  refine ⟨hempty, ?_⟩
  intro tb' hfind'
  by_cases hup : ((tb.cols.filter (fun c => c.name ≠ pkCol.name)).zip
      inputs).filter (fun p => p.2 ≠ "") = []
  · rw [hempty hup] at hfind'
    rw [show ((UpdateOut.updNoChanges, db)).2 = db from rfl, hfind] at hfind'
    have := Option.some.inj hfind'
    subst this
    exact ⟨rfl, fun i j _ _ => rfl⟩
  · rw [update_record_eq db t pkValue inputs tb pkCol hfind hpk hup] at hfind'
    dsimp only at hfind'
    rw [findTable?_replaceTable db t tb (fun x =>
      { x with rows := x.rows.map (fun r =>
          if bindCompare pkCol.type
              (r.getD ((colIdx? tb.cols pkCol.name).getD 0) .null)
              (.text pkValue) = true
          then (((tb.cols.filter (fun c => c.name ≠ pkCol.name)).zip
              inputs).filter (fun p => p.2 ≠ "")).foldl
            (fun row p =>
              match colIdx? tb.cols p.1.name with
              | some j => row.set j (applyAffinity p.1.type (Val.text p.2))
              | none => row) r
          else r) }) (fun x => rfl) hfind] at hfind'
    have htb' := Option.some.inj hfind'
    subst htb'
    constructor
    · exact List.length_map _ _
    · intro i j hj huntouched
      simp only [List.getD_eq_getElem?_getD, List.getElem?_map]
      cases hri : tb.rows[i]? with
      | none => rfl
      | some r =>
        simp only [Option.map_some']
        simp only [Option.getD_some]
        by_cases hm : bindCompare pkCol.type
            (r[(colIdx? tb.cols pkCol.name).getD 0]?.getD Val.null)
            (.text pkValue) = true
        · rw [if_pos hm]
          rw [← List.getD_eq_getElem?_getD, ← List.getD_eq_getElem?_getD]
          apply foldl_set_getD_untouched tb.cols j hnd hj
          · intro p hp
            have hz := List.mem_of_mem_filter hp
            exact List.mem_of_mem_filter (List.of_mem_zip hz).1
          · exact huntouched
        · rw [if_neg hm]

/-- Witness for C7 (amended) at the fixture: updating row `1`'s `name` to
`z` leaves the `id` column (not in the change set) byte-for-byte intact
and preserves the row count. -/
theorem update_record_frame_witness :
    (⟨"t", tFix.cols, [[Val.int 1, Val.text "z"], [Val.int 2, Val.text "y"]]⟩
      : Table).rows.length = tFix.rows.length ∧
    ((⟨"t", tFix.cols, [[Val.int 1, Val.text "z"], [Val.int 2, Val.text "y"]]⟩
      : Table).rows.getD 0 []).getD 0 .null =
      (tFix.rows.getD 0 []).getD 0 .null :=
  have h := (update_record_frame dbFix "t" "1" ["z"] tFix
    ⟨"id", "INTEGER", true⟩ (by decide) (by decide) (by decide)).2
    ⟨"t", tFix.cols, [[Val.int 1, Val.text "z"], [Val.int 2, Val.text "y"]]⟩
    (by decide)
  ⟨h.1, h.2 0 0 (by decide) (by decide)⟩

/-- Helper: codepoint of a decimal digit character. -/
theorem digitChar_toNat :
    ∀ d : Fin 10, (Nat.digitChar d.val).toNat = 48 + d.val := by decide

theorem digitChar_toNat_of_lt {d : Nat} (h : d < 10) :
    (Nat.digitChar d).toNat = 48 + d := digitChar_toNat ⟨d, h⟩

/-- Helper: reading a digit character back. -/
theorem digitVal?_digitChar :
    ∀ d : Fin 10, digitVal? (Nat.digitChar d.val) = some d.val := by decide

theorem digitVal?_digitChar_of_lt {d : Nat} (h : d < 10) :
    digitVal? (Nat.digitChar d) = some d := digitVal?_digitChar ⟨d, h⟩

/-- Helper: the zero-padded form of a number below 1000 is its three
digit characters. -/
theorem pad3chars_eq (n : Nat) (h : n < 1000) :
    pad3chars n =
      [Nat.digitChar (n / 100), Nat.digitChar (n / 10 % 10),
       Nat.digitChar (n % 10)] := by
  unfold pad3chars
  rw [if_pos h]

/-- Helper: parsing the zero-padded digits of `n ≤ 999` recovers `n`
(the `int(last[0][1:])` step of `signup`). -/
theorem parseNatChars_pad3 (n : Nat) (h : n ≤ 999) :
    parseNatChars (pad3chars n) = some n := by
  rw [pad3chars_eq n (by omega)]
  unfold parseNatChars
  rw [if_neg (by simp)]
  simp only [List.foldl_cons, List.foldl_nil]
  rw [digitVal?_digitChar_of_lt (show n / 100 < 10 by omega),
    digitVal?_digitChar_of_lt (show n / 10 % 10 < 10 by omega),
    digitVal?_digitChar_of_lt (show n % 10 < 10 by omega)]
  dsimp only
  congr 1
  omega

/-- Helper: byte order on equal-length digit strings is numeric order. -/
theorem strLtChars_digits (x2 x1 x0 y2 y1 y0 : Nat)
    (h2 : x2 < 10) (h1 : x1 < 10) (h0 : x0 < 10)
    (k2 : y2 < 10) (k1 : y1 < 10) (k0 : y0 < 10)
    (hlex : 100 * x2 + 10 * x1 + x0 < 100 * y2 + 10 * y1 + y0) :
    strLtChars
      [Nat.digitChar x2, Nat.digitChar x1, Nat.digitChar x0]
      [Nat.digitChar y2, Nat.digitChar y1, Nat.digitChar y0] = true := by
  simp only [strLtChars, digitChar_toNat_of_lt h2, digitChar_toNat_of_lt h1,
    digitChar_toNat_of_lt h0, digitChar_toNat_of_lt k2,
    digitChar_toNat_of_lt k1, digitChar_toNat_of_lt k0]
  split_ifs <;> first
  | rfl
  | (exfalso; omega)

/-- Helper: the padded representations below 1000 are ordered like the
numbers. -/
theorem pad3chars_lt (a b : Nat) (hab : a < b) (hb : b ≤ 999) :
    strLtChars (pad3chars a) (pad3chars b) = true := by
  rw [pad3chars_eq a (by omega), pad3chars_eq b (by omega)]
  apply strLtChars_digits <;> omega

/-- Helper: the strict byte order is irreflexive. -/
theorem strLtChars_irrefl (l : List Char) : strLtChars l l = false := by
  induction l with
  | nil => rfl
  | cons c rest ih => simp [strLtChars, ih]

/-- Helper: a strictly smaller byte string is a different byte string. -/
theorem strLtChars_ne (a b : List Char) (h : strLtChars a b = true) :
    a ≠ b := by
  intro hab
  subst hab
  rw [strLtChars_irrefl] at h
  exact absurd h (by decide)

/-- Helper: the character data of a formatted identifier. -/
theorem fmtUserId_data (n : Nat) : (fmtUserId n).data = 'U' :: pad3chars n := by
  unfold fmtUserId
  rw [String.data_append]
  rfl

/-- Helper: byte comparison under a shared head character. -/
theorem strLtChars_cons_same (c : Char) (xs ys : List Char) :
    strLtChars (c :: xs) (c :: ys) = strLtChars xs ys := by
  simp [strLtChars]

/-- Helper: formatted identifiers below 1000 are ordered like their
sequence numbers under the store's TEXT ordering. -/
theorem valLtB_fmtUserId (a b : Nat) (hab : a < b) (hb : b ≤ 999) :
    valLtB (.text (fmtUserId a)) (.text (fmtUserId b)) = true := by
  show strLtChars (fmtUserId a).data (fmtUserId b).data = true
  rw [fmtUserId_data, fmtUserId_data, strLtChars_cons_same]
  exact pad3chars_lt a b hab hb

/-- Helper: `natsFrom` in tail form. -/
theorem natsFrom_concat (s n : Nat) :
    natsFrom s (n + 1) = natsFrom s n ++ [s + n] := by
  induction n generalizing s with
  | zero => rfl
  | succ m ih =>
    show s :: natsFrom (s + 1) (m + 1) = (s :: natsFrom (s + 1) m) ++ _
    rw [ih (s + 1), List.cons_append]
    have h : s + 1 + m = s + (m + 1) := by omega
    rw [h]

/-- Helper: `natsFrom` counts its length. -/
theorem natsFrom_length (s n : Nat) : (natsFrom s n).length = n := by
  induction n generalizing s with
  | zero => rfl
  | succ m ih => simp [natsFrom, ih]

/-- Helper: members of `natsFrom s n` lie in `[s, s + n)`. -/
theorem mem_natsFrom (s n x : Nat) (h : x ∈ natsFrom s n) :
    s ≤ x ∧ x < s + n := by
  induction n generalizing s with
  | zero => cases h
  | succ m ih =>
    rcases List.mem_cons.mp h with h | h
    · omega
    · have := ih (s + 1) h
      omega

/-- Helper: the username duplicate check of `signup` on the `User` store
is a filter over the stored rows (TEXT affinity leaves the bound parameter
untouched). -/
theorem selectWhere_username (rows : List (List Val)) (param : Val) :
    selectWhere (userDB rows) "User" "username" param =
      .ok (rows.filter (fun r => valEqB (r.getD 1 .null) param)) := rfl

/-- Helper: likewise for the email duplicate check. -/
theorem selectWhere_email (rows : List (List Val)) (param : Val) :
    selectWhere (userDB rows) "User" "email" param =
      .ok (rows.filter (fun r => valEqB (r.getD 2 .null) param)) := rfl

/-- Helper: `SELECT user_id FROM User ORDER BY user_id DESC LIMIT 1` is the
running maximum of column 0. -/
theorem selectMaxCol_userId (rows : List (List Val)) :
    selectMaxCol (userDB rows) "User" "user_id" =
      .ok (maxVal? (rows.map (fun r => r.getD 0 .null))) := rfl

/-- Helper: the `INSERT INTO User (...)` of `signup` appends exactly the
new row. -/
theorem insertInto_user (rows : List (List Val)) (uid u e pw : String)
    (role : Int) :
    insertInto (userDB rows) "User"
      [("user_id", .text uid), ("username", .text u), ("email", .text e),
       ("password", .text pw), ("role", .int role)] =
      .ok (userDB (rows ++
        [[.text uid, .text u, .text e, .text pw, .int role]])) := rfl

/-- Helper: a signup whose username is already stored is rejected with the
duplicate-username outcome and leaves the store unchanged. -/
theorem signup_userDB_dupUsername (hash : String → String)
    (rows : List (List Val)) (req : SignupReq)
    (h : ∃ r ∈ rows, valEqB (r.getD 1 .null) (.text req.username) = true) :
    signup hash (userDB rows) req = (.dupUsername, userDB rows) := by
  have hne : (rows.filter
      (fun r => valEqB (r.getD 1 .null) (.text req.username))).head?.isSome =
      true := by
    obtain ⟨r, hr, hv⟩ := h
    have hmem : r ∈ rows.filter
        (fun r => valEqB (r.getD 1 .null) (.text req.username)) :=
      List.mem_filter.mpr ⟨hr, hv⟩
    cases hl : rows.filter (fun r => valEqB (r.getD 1 .null) (.text req.username)) with
    | nil => rw [hl] at hmem; cases hmem
    | cons a l => rfl
  unfold signup
  rw [selectWhere_username]
  dsimp only
  rw [hne]
  rfl

/-- Helper: a signup with a fresh username but an already-stored email is
rejected with the duplicate-email outcome and leaves the store
unchanged. -/
theorem signup_userDB_dupEmail (hash : String → String)
    (rows : List (List Val)) (req : SignupReq)
    (hu : rows.filter (fun r => valEqB (r.getD 1 .null) (.text req.username)) = [])
    (h : ∃ r ∈ rows, valEqB (r.getD 2 .null) (.text req.email) = true) :
    signup hash (userDB rows) req = (.dupEmail, userDB rows) := by
  have hne : (rows.filter
      (fun r => valEqB (r.getD 2 .null) (.text req.email))).head?.isSome =
      true := by
    obtain ⟨r, hr, hv⟩ := h
    have hmem : r ∈ rows.filter
        (fun r => valEqB (r.getD 2 .null) (.text req.email)) :=
      List.mem_filter.mpr ⟨hr, hv⟩
    cases hl : rows.filter (fun r => valEqB (r.getD 2 .null) (.text req.email)) with
    | nil => rw [hl] at hmem; cases hmem
    | cons a l => rfl
  unfold signup
  rw [selectWhere_username, hu]
  dsimp only
  rw [selectWhere_email]
  dsimp only
  rw [hne]
  rfl

/-- Helper: the formatted identifier is truthy (non-empty). -/
theorem valTruthy_fmtUserId (n : Nat) :
    valTruthy (.text (fmtUserId n)) = true := by
  show (fmtUserId n != "") = true
  rw [bne_iff_ne]
  intro habs
  have h := congrArg String.data habs
  rw [fmtUserId_data] at h
  cases h

/-- Helper: a signup with fresh username and email, when the stored
maximum identifier is `fmtUserId k` (or the table is empty and `k = 0`),
issues `fmtUserId (k+1)` and appends the new row. -/
theorem signup_userDB_next (hash : String → String)
    (rows : List (List Val)) (req : SignupReq) (k : Nat)
    (hu : rows.filter (fun r => valEqB (r.getD 1 .null) (.text req.username)) = [])
    (he : rows.filter (fun r => valEqB (r.getD 2 .null) (.text req.email)) = [])
    (hmax : maxVal? (rows.map (fun r => r.getD 0 .null)) =
      if k = 0 then none else some (.text (fmtUserId k)))
    (hparse : parseNatChars (pad3chars k) = some k) :
    signup hash (userDB rows) req =
      (.created (fmtUserId (k + 1)),
       userDB (rows ++ [mkUserRow hash req (k + 1)])) := by
  by_cases hk : k = 0
  · subst hk
    rw [if_pos rfl] at hmax
    unfold signup
    rw [selectWhere_username, hu]
    dsimp only
    rw [selectWhere_email, he]
    dsimp only
    rw [selectMaxCol_userId, hmax]
    dsimp only
    rw [insertInto_user]
    rfl
  · rw [if_neg hk] at hmax
    unfold signup
    rw [selectWhere_username, hu]
    dsimp only
    rw [selectWhere_email, he]
    dsimp only
    rw [selectMaxCol_userId, hmax]
    dsimp only
    rw [valTruthy_fmtUserId, if_pos rfl]
    rw [show (fmtUserId k).data.drop 1 = pad3chars k from by
      rw [fmtUserId_data]
      rfl]
    rw [hparse]
    dsimp only
    rw [insertInto_user]
    rfl

/-- Helper: `expectedRows` distributes over request-list append. -/
theorem expectedRows_append (hash : String → String)
    (l1 l2 : List SignupReq) : ∀ n,
    expectedRows hash (l1 ++ l2) n =
      expectedRows hash l1 n ++ expectedRows hash l2 (n + l1.length) := by
  induction l1 with
  | nil => intro n; simp [expectedRows]
  | cons r rest ih =>
    intro n
    show mkUserRow hash r n :: expectedRows hash (rest ++ l2) (n + 1) = _
    rw [ih (n + 1)]
    show _ = mkUserRow hash r n :: (expectedRows hash rest (n + 1) ++
      expectedRows hash l2 (n + (rest.length + 1)))
    have h : n + 1 + rest.length = n + (rest.length + 1) := by omega
    rw [h]

/-- Helper: the `user_id` column of the expected store. -/
theorem expectedRows_ids (hash : String → String) (reqs : List SignupReq) :
    ∀ n, (expectedRows hash reqs n).map (fun r => r.getD 0 .null) =
      (natsFrom n reqs.length).map (fun i => Val.text (fmtUserId i)) := by
  induction reqs with
  | nil => intro n; rfl
  | cons r rest ih =>
    intro n
    show Val.text (fmtUserId n) :: (expectedRows hash rest (n + 1)).map
        (fun r => r.getD 0 .null) = _
    rw [ih (n + 1)]
    rfl

/-- Helper: every expected row is a `mkUserRow` of one of the requests. -/
theorem mem_expectedRows (hash : String → String) (reqs : List SignupReq) :
    ∀ n row, row ∈ expectedRows hash reqs n →
    ∃ r ∈ reqs, ∃ i, row = mkUserRow hash r i := by
  induction reqs with
  | nil => intro n row h; cases h
  | cons r rest ih =>
    intro n row h
    rcases List.mem_cons.mp h with h | h
    · exact ⟨r, List.mem_cons_self r rest, n, h⟩
    · obtain ⟨q, hq, i, hi⟩ := ih (n + 1) row h
      exact ⟨q, List.mem_cons_of_mem r hq, i, hi⟩

/-- Helper: a username used by none of the stored requests matches no
stored row. -/
theorem expectedRows_username_filter (hash : String → String)
    (reqs : List SignupReq) (n : Nat) (u : String)
    (hfresh : ∀ r ∈ reqs, r.username ≠ u) :
    (expectedRows hash reqs n).filter
      (fun row => valEqB (row.getD 1 .null) (.text u)) = [] := by
  rw [List.filter_eq_nil_iff]
  intro row hrow
  obtain ⟨r, hr, i, hi⟩ := mem_expectedRows hash reqs n row hrow
  subst hi
  show ¬(valEqB (.text r.username) (.text u) = true)
  simp only [valEqB, beq_iff_eq]
  exact hfresh r hr

/-- Helper: likewise for emails. -/
theorem expectedRows_email_filter (hash : String → String)
    (reqs : List SignupReq) (n : Nat) (e : String)
    (hfresh : ∀ r ∈ reqs, r.email ≠ e) :
    (expectedRows hash reqs n).filter
      (fun row => valEqB (row.getD 2 .null) (.text e)) = [] := by
  rw [List.filter_eq_nil_iff]
  intro row hrow
  obtain ⟨r, hr, i, hi⟩ := mem_expectedRows hash reqs n row hrow
  subst hi
  show ¬(valEqB (.text r.email) (.text e) = true)
  simp only [valEqB, beq_iff_eq]
  exact hfresh r hr

/-- Helper: the running maximum of a snoc. -/
theorem maxVal?_append_one (l : List Val) (x : Val) :
    maxVal? (l ++ [x]) = some (match maxVal? l with
      | none => x
      | some m => if valLtB m x then x else m) := by
  unfold maxVal?
  rw [List.foldl_append]
  simp only [List.foldl_cons, List.foldl_nil]
  cases hacc : List.foldl (fun acc v =>
      match acc with
      | none => some v
      | some m => some (if valLtB m v then v else m)) none l with
  | none => rfl
  | some m => rfl

/-- Helper: the maximum of the first `k ≤ 999` identifiers is the `k`-th
(the padded TEXT order agrees with the numeric order below 1000). -/
theorem maxVal?_fmt (k : Nat) (hk : k ≤ 999) :
    maxVal? ((natsFrom 1 k).map (fun i => Val.text (fmtUserId i))) =
      if k = 0 then none else some (.text (fmtUserId k)) := by
  induction k with
  | zero => rfl
  | succ m ih =>
    rw [natsFrom_concat, List.map_append]
    simp only [List.map_cons, List.map_nil]
    rw [maxVal?_append_one, ih (by omega)]
    by_cases hm : m = 0
    · subst hm
      rfl
    · rw [if_neg hm, if_neg (by omega : ¬ m + 1 = 0)]
      show some (if valLtB (.text (fmtUserId m))
        (.text (fmtUserId (1 + m))) = true then
          Val.text (fmtUserId (1 + m)) else Val.text (fmtUserId m)) = _
      rw [show 1 + m = m + 1 from by omega]
      rw [valLtB_fmtUserId m (m + 1) (by omega) (by omega), if_pos rfl]

/-- Helper: running two request batches in sequence. -/
theorem runSignups_append (hash : String → String) (l1 l2 : List SignupReq) :
    ∀ db, runSignups hash (l1 ++ l2) db =
      ((runSignups hash l1 db).1 ++
        (runSignups hash l2 (runSignups hash l1 db).2).1,
       (runSignups hash l2 (runSignups hash l1 db).2).2) := by
  induction l1 with
  | nil => intro db; rfl
  | cons r rest ih =>
    intro db
    show (let p := signup hash db r
          let q := runSignups hash (rest ++ l2) p.2
          (p.1 :: q.1, q.2)) = _
    dsimp only
    rw [ih (signup hash db r).2]
    rfl

/-- Helper: after `done` fresh signups (at most 999 in total with the
remaining ones), running further requests with globally pairwise-distinct
usernames and emails issues the identifiers `fmtUserId` of the successive
sequence numbers and extends the `User` table accordingly. -/
theorem runSignups_spec (hash : String → String) :
    ∀ (reqs done : List SignupReq),
    done.length + reqs.length ≤ 999 →
    (((done ++ reqs).map (fun r => r.username)).Pairwise (· ≠ ·)) →
    (((done ++ reqs).map (fun r => r.email)).Pairwise (· ≠ ·)) →
    runSignups hash reqs (userDB (expectedRows hash done 1)) =
      ((natsFrom (done.length + 1) reqs.length).map
        (fun n => SignupOut.created (fmtUserId n)),
       userDB (expectedRows hash (done ++ reqs) 1)) := by
  intro reqs
  induction reqs with
  | nil =>
    intro done _ _ _
    show ([], userDB (expectedRows hash done 1)) = _
    rw [List.append_nil]
    rfl
  | cons r rest ih =>
    intro done hlen hu he
    have hmapu : ((done ++ r :: rest).map (fun r => r.username)) =
        done.map (fun r => r.username) ++ (r :: rest).map (fun r => r.username) :=
      List.map_append _ _ _
    have hfreshu : ∀ q ∈ done, q.username ≠ r.username := by
      intro q hq
      rw [hmapu] at hu
      exact (List.pairwise_append.mp hu).2.2 q.username
        (List.mem_map_of_mem _ hq) r.username (by simp)
    have hmape : ((done ++ r :: rest).map (fun r => r.email)) =
        done.map (fun r => r.email) ++ (r :: rest).map (fun r => r.email) :=
      List.map_append _ _ _
    have hfreshe : ∀ q ∈ done, q.email ≠ r.email := by
      intro q hq
      rw [hmape] at he
      exact (List.pairwise_append.mp he).2.2 q.email
        (List.mem_map_of_mem _ hq) r.email (by simp)
    have hstep : signup hash (userDB (expectedRows hash done 1)) r =
        (.created (fmtUserId (done.length + 1)),
         userDB (expectedRows hash done 1 ++
           [mkUserRow hash r (done.length + 1)])) := by
      apply signup_userDB_next hash _ r done.length
      · exact expectedRows_username_filter hash done 1 r.username hfreshu
      · exact expectedRows_email_filter hash done 1 r.email hfreshe
      · rw [expectedRows_ids hash done 1]
        exact maxVal?_fmt done.length (by simp at hlen; omega)
      · exact parseNatChars_pad3 done.length (by simp at hlen; omega)
    show (let p := signup hash (userDB (expectedRows hash done 1)) r
          let q := runSignups hash rest p.2
          (p.1 :: q.1, q.2)) = _
    rw [hstep]
    have hrows : expectedRows hash done 1 ++ [mkUserRow hash r (done.length + 1)] =
        expectedRows hash (done ++ [r]) 1 := by
      rw [expectedRows_append hash done [r] 1, Nat.add_comm 1 done.length]
      rfl
    rw [hrows]
    dsimp only
    have hlen' : (done ++ [r]).length + rest.length ≤ 999 := by
      simp at hlen ⊢
      omega
    have hassoc : (done ++ [r]) ++ rest = done ++ r :: rest := by
      rw [List.append_assoc]
      rfl
    have hu' : (((done ++ [r]) ++ rest).map (fun r => r.username)).Pairwise (· ≠ ·) := by
      rw [hassoc]; exact hu
    have he' : (((done ++ [r]) ++ rest).map (fun r => r.email)).Pairwise (· ≠ ·) := by
      rw [hassoc]; exact he
    rw [ih (done ++ [r]) hlen' hu' he']
    have hlen1 : (done ++ [r]).length = done.length + 1 := by simp
    rw [hlen1, hassoc]
    rfl

/-- Helper: outcomes drawn from a created-identifier list all carry
status 201. -/
theorem status_of_mem_created (L : List Nat) (o : SignupOut)
    (ho : o ∈ L.map (fun n => SignupOut.created (fmtUserId n))) :
    signupStatus o = 201 := by
  obtain ⟨n, _, hn⟩ := List.mem_map.mp ho
  rw [← hn]
  rfl

/-- Helper: a single-request run is a single signup. -/
theorem runSignups_singleton (hash : String → String) (r : SignupReq)
    (db : DB) :
    runSignups hash [r] db =
      ([(signup hash db r).1], (signup hash db r).2) := rfl

/-- Claim C2 (amended): starting from an empty `User` table, every
sequence of at most 1000 signup requests with pairwise-distinct usernames
and pairwise-distinct emails succeeds throughout with status 201, and the
issued identifiers are exactly `U001`, `U002`, …, that is
`fmtUserId 1, …, fmtUserId n` — numerically strictly increasing (the
1000th being `U1000`); and a signup repeating an already-stored username —
or, with a fresh username, an already-stored email — is rejected with the
409 duplicate outcome and inserts no row.  Beyond 1000 requests the
allocation repeats `U1000` (see the counterexample theorem). -/
theorem signup_sequence_spec (hash : String → String)
    (reqs : List SignupReq)
    (hlen : reqs.length ≤ 1000)
    (hu : (reqs.map (fun r => r.username)).Pairwise (· ≠ ·))
    (he : (reqs.map (fun r => r.email)).Pairwise (· ≠ ·)) :
    ((runSignups hash reqs (userDB [])).1 =
      (natsFrom 1 reqs.length).map (fun n => SignupOut.created (fmtUserId n)) ∧
     ∀ o ∈ (runSignups hash reqs (userDB [])).1, signupStatus o = 201) ∧
    (∀ rows req,
      (∃ r ∈ rows, valEqB (r.getD 1 .null) (.text req.username) = true) →
      signup hash (userDB rows) req = (.dupUsername, userDB rows) ∧
      signupStatus (signup hash (userDB rows) req).1 = 409) ∧
    (∀ rows req,
      rows.filter (fun r => valEqB (r.getD 1 .null) (.text req.username)) = [] →
      (∃ r ∈ rows, valEqB (r.getD 2 .null) (.text req.email) = true) →
      signup hash (userDB rows) req = (.dupEmail, userDB rows) ∧
      signupStatus (signup hash (userDB rows) req).1 = 409) := by
  refine ⟨?_, ?_, ?_⟩
  · have hrun : (runSignups hash reqs (userDB [])).1 =
        (natsFrom 1 reqs.length).map (fun n => SignupOut.created (fmtUserId n)) := by
      by_cases hsm : reqs.length ≤ 999
      · have h := runSignups_spec hash reqs [] (by simpa using hsm)
          (by simpa using hu) (by simpa using he)
        rw [show userDB (expectedRows hash [] 1) = userDB [] from rfl] at h
        rw [h]
        rfl
      · rcases List.eq_nil_or_concat reqs with hnil | ⟨l, a, hcat⟩
        · rw [hnil] at hlen hsm; simp at hsm
        · rw [List.concat_eq_append] at hcat
          subst hcat
          have hlen999 : l.length = 999 := by
            rw [List.length_append] at hlen hsm
            simp at hlen hsm
            omega
          have hsubu : ((l.map (fun r => r.username)).Pairwise (· ≠ ·)) := by
            have hsl : (l.map (fun r => r.username)).Sublist
                ((l ++ [a]).map (fun r => r.username)) :=
              (List.sublist_append_left l [a]).map _
            exact hu.sublist hsl
          have hsube : ((l.map (fun r => r.email)).Pairwise (· ≠ ·)) := by
            have hsl : (l.map (fun r => r.email)).Sublist
                ((l ++ [a]).map (fun r => r.email)) :=
              (List.sublist_append_left l [a]).map _
            exact he.sublist hsl
          have hl := runSignups_spec hash l [] (by simpa using by omega)
            (by simpa using hsubu) (by simpa using hsube)
          rw [show userDB (expectedRows hash [] 1) = userDB [] from rfl] at hl
          have hfreshu : ∀ q ∈ l, q.username ≠ a.username := by
            intro q hq
            rw [List.map_append] at hu
            exact (List.pairwise_append.mp hu).2.2 q.username
              (List.mem_map_of_mem _ hq) a.username (by simp)
          have hfreshe : ∀ q ∈ l, q.email ≠ a.email := by
            intro q hq
            rw [List.map_append] at he
            exact (List.pairwise_append.mp he).2.2 q.email
              (List.mem_map_of_mem _ hq) a.email (by simp)
          have hstep : signup hash (userDB (expectedRows hash l 1)) a =
              (.created (fmtUserId 1000),
               userDB (expectedRows hash l 1 ++ [mkUserRow hash a 1000])) := by
            have h := signup_userDB_next hash (expectedRows hash l 1) a 999
              (expectedRows_username_filter hash l 1 a.username hfreshu)
              (expectedRows_email_filter hash l 1 a.email hfreshe)
              (by rw [expectedRows_ids hash l 1, hlen999]
                  exact maxVal?_fmt 999 (by omega))
              (parseNatChars_pad3 999 (by omega))
            exact h
          rw [runSignups_append hash l [a] (userDB []), hl]
          dsimp only
          rw [show ([] : List SignupReq) ++ l = l from rfl]
          rw [runSignups_singleton, hstep]
          rw [List.length_append, hlen999]
          rw [show (999 : Nat) + [a].length = 999 + 1 from rfl]
          rw [natsFrom_concat 1 999, List.map_append]
          rw [show (1 : Nat) + 999 = 1000 from rfl]
          rfl
    refine ⟨hrun, ?_⟩
    intro o ho
    rw [hrun] at ho
    exact status_of_mem_created _ o ho
  · intro rows req h
    have heq := signup_userDB_dupUsername hash rows req h
    exact ⟨heq, by rw [heq]; rfl⟩
  · intro rows req hu2 h
    have heq := signup_userDB_dupEmail hash rows req hu2 h
    exact ⟨heq, by rw [heq]; rfl⟩

/-- Witness for C2 (amended) at two concrete requests: both succeed and
receive `U001`, `U002`. -/
theorem signup_sequence_spec_witness :
    (runSignups hashFix [reqFix 1, reqFix 2] (userDB [])).1 =
      (natsFrom 1 2).map (fun n => SignupOut.created (fmtUserId n)) :=
  ((signup_sequence_spec hashFix [reqFix 1, reqFix 2] (by decide) (by decide)
    (by decide)).1).1

/-- Helper: consecutive naturals are strictly increasing. -/
theorem natsFrom_pairwise_lt (s n : Nat) :
    (natsFrom s n).Pairwise (· < ·) := by
  induction n generalizing s with
  | zero => exact List.Pairwise.nil
  | succ m ih =>
    refine List.pairwise_cons.mpr ⟨?_, ih (s + 1)⟩
    intro b hb
    have := mem_natsFrom (s + 1) m b hb
    omega

/-- Helper: zero-padded digit strings of distinct numbers up to 1001 are
distinct. -/
theorem pad3chars_length_three (i : Nat) (h : i ≤ 999) :
    (pad3chars i).length = 3 := by
  rw [pad3chars_eq i (by omega)]
  rfl

theorem pad3chars_inj (i j : Nat) (hij : i < j) (hj : j ≤ 1001) :
    pad3chars i ≠ pad3chars j := by
  by_cases h9 : j ≤ 999
  · exact strLtChars_ne _ _ (pad3chars_lt i j hij h9)
  · by_cases hi9 : i ≤ 999
    · intro habs
      have h3 := pad3chars_length_three i hi9
      rw [habs] at h3
      have hj4 : (pad3chars j).length = 4 := by
        have : j = 1000 ∨ j = 1001 := by omega
        rcases this with h | h <;> rw [h] <;> decide
      omega
    · have hi : i = 1000 := by omega
      have hjj : j = 1001 := by omega
      rw [hi, hjj]
      decide

/-- Helper: a fixed tag followed by distinct padded numbers gives distinct
strings. -/
theorem tag_pad_ne (p : String) (i j : Nat) (hij : i < j) (hj : j ≤ 1001) :
    p ++ String.mk (pad3chars i) ≠ p ++ String.mk (pad3chars j) := by
  intro habs
  have h := congrArg String.data habs
  rw [String.data_append, String.data_append] at h
  have h2 := List.append_cancel_left h
  exact pad3chars_inj i j hij hj h2

/-- Helper: the counterexample usernames are pairwise distinct. -/
theorem reqFix_usernames_pairwise (n : Nat) (hn : n ≤ 1001) :
    ((((natsFrom 1 n).map reqFix).map (fun r => r.username)).Pairwise (· ≠ ·)) := by
  rw [List.map_map, List.pairwise_map]
  apply (natsFrom_pairwise_lt 1 n).imp_of_mem
  intro i j hi hj hij
  have hjb := mem_natsFrom 1 n j hj
  exact tag_pad_ne "u" i j hij (by omega)

/-- Helper: the counterexample emails are pairwise distinct. -/
theorem reqFix_emails_pairwise (n : Nat) (hn : n ≤ 1001) :
    ((((natsFrom 1 n).map reqFix).map (fun r => r.email)).Pairwise (· ≠ ·)) := by
  rw [List.map_map, List.pairwise_map]
  apply (natsFrom_pairwise_lt 1 n).imp_of_mem
  intro i j hi hj hij
  have hjb := mem_natsFrom 1 n j hj
  exact tag_pad_ne "e" i j hij (by omega)

/-- Helper: the 1001 counterexample requests split as 999 + 2. -/
theorem reqs1001_split :
    reqs1001 = (natsFrom 1 999).map reqFix ++ [reqFix 1000, reqFix 1001] := by
  show (natsFrom 1 1001).map reqFix = _
  have h1 : natsFrom 1 1001 = natsFrom 1 1000 ++ [1 + 1000] := natsFrom_concat 1 1000
  have h2 : natsFrom 1 1000 = natsFrom 1 999 ++ [1 + 999] := natsFrom_concat 1 999
  rw [h1, h2, List.append_assoc, List.map_append]
  rfl

/-- Helper: the first 999 counterexample requests all succeed and leave the
expected rows. -/
theorem runSignups_first999 :
    runSignups hashFix ((natsFrom 1 999).map reqFix) (userDB []) =
      ((natsFrom 1 999).map (fun n => SignupOut.created (fmtUserId n)),
       userDB (expectedRows hashFix ((natsFrom 1 999).map reqFix) 1)) := by
  have h := runSignups_spec hashFix ((natsFrom 1 999).map reqFix) []
    (by simp only [List.length_nil, List.length_map, natsFrom_length]; omega)
    (reqFix_usernames_pairwise 999 (by omega))
    (reqFix_emails_pairwise 999 (by omega))
  simp only [List.nil_append, List.length_nil, List.length_map,
    natsFrom_length, Nat.zero_add] at h
  exact h

/-- Helper: the stored rows after the first 1000 successes, as a snoc. -/
theorem rows1000_snoc :
    expectedRows hashFix ((natsFrom 1 1000).map reqFix) 1 =
      expectedRows hashFix ((natsFrom 1 999).map reqFix) 1 ++
        [mkUserRow hashFix (reqFix 1000) (999 + 1)] := by
  have h2 : natsFrom 1 1000 = natsFrom 1 999 ++ [1 + 999] := natsFrom_concat 1 999
  rw [h2, List.map_append, expectedRows_append]
  simp only [List.length_map, natsFrom_length]
  rfl

/-- Helper: request `j` has a username fresh with respect to the first `n`
requests. -/
theorem reqFix_fresh_username (n j : Nat) (hn : n < j) (hj : j ≤ 1001) :
    ∀ r ∈ (natsFrom 1 n).map reqFix, r.username ≠ (reqFix j).username := by
  intro r hr
  obtain ⟨i, hi, hri⟩ := List.mem_map.mp hr
  subst hri
  have hib := mem_natsFrom 1 n i hi
  exact tag_pad_ne "u" i j (by omega) hj

/-- Helper: likewise for emails. -/
theorem reqFix_fresh_email (n j : Nat) (hn : n < j) (hj : j ≤ 1001) :
    ∀ r ∈ (natsFrom 1 n).map reqFix, r.email ≠ (reqFix j).email := by
  intro r hr
  obtain ⟨i, hi, hri⟩ := List.mem_map.mp hr
  subst hri
  have hib := mem_natsFrom 1 n i hi
  exact tag_pad_ne "e" i j (by omega) hj

/-- Helper: the 1000th signup succeeds with identifier `fmtUserId 1000`. -/
theorem signup_step1000 :
    signup hashFix
      (userDB (expectedRows hashFix ((natsFrom 1 999).map reqFix) 1))
      (reqFix 1000) =
      (.created (fmtUserId (999 + 1)),
       userDB (expectedRows hashFix ((natsFrom 1 999).map reqFix) 1 ++
         [mkUserRow hashFix (reqFix 1000) (999 + 1)])) := by
  refine signup_userDB_next hashFix _ _ 999 ?_ ?_ ?_ ?_
  · exact expectedRows_username_filter hashFix _ 1 _
      (reqFix_fresh_username 999 1000 (by omega) (by omega))
  · exact expectedRows_email_filter hashFix _ 1 _
      (reqFix_fresh_email 999 1000 (by omega) (by omega))
  · rw [expectedRows_ids]
    simp only [List.length_map, natsFrom_length]
    exact maxVal?_fmt 999 (by omega)
  · exact parseNatChars_pad3 999 (by omega)

/-- Helper: the string-DESC maximum of the first 1000 identifiers is
`U999`, not `U1000` — `"U1000" < "U999"` in byte order. -/
theorem maxVal?_first1000 :
    maxVal? ((expectedRows hashFix ((natsFrom 1 1000).map reqFix) 1).map
      (fun r => r.getD 0 .null)) = some (.text (fmtUserId 999)) := by
  rw [expectedRows_ids]
  simp only [List.length_map, natsFrom_length]
  have h2 : natsFrom 1 1000 = natsFrom 1 999 ++ [1 + 999] := natsFrom_concat 1 999
  rw [h2, List.map_append]
  simp only [List.map_cons, List.map_nil]
  rw [maxVal?_append_one, maxVal?_fmt 999 (by omega)]
  decide

/-- Helper: the 1001st signup also succeeds with identifier
`fmtUserId 1000` — the allocation repeats. -/
theorem signup_step1001 :
    signup hashFix
      (userDB (expectedRows hashFix ((natsFrom 1 1000).map reqFix) 1))
      (reqFix 1001) =
      (.created (fmtUserId (999 + 1)),
       userDB (expectedRows hashFix ((natsFrom 1 1000).map reqFix) 1 ++
         [mkUserRow hashFix (reqFix 1001) (999 + 1)])) := by
  refine signup_userDB_next hashFix _ _ 999 ?_ ?_ ?_ ?_
  · exact expectedRows_username_filter hashFix _ 1 _
      (reqFix_fresh_username 1000 1001 (by omega) (by omega))
  · exact expectedRows_email_filter hashFix _ 1 _
      (reqFix_fresh_email 1000 1001 (by omega) (by omega))
  · rw [if_neg (by omega : ¬(999 : Nat) = 0)]
    exact maxVal?_first1000
  · exact parseNatChars_pad3 999 (by omega)

/-- Helper: one unfolding step of `runSignups`. -/
theorem runSignups_cons (hash : String → String) (r : SignupReq)
    (rs : List SignupReq) (db : DB) :
    runSignups hash (r :: rs) db =
      ((signup hash db r).1 ::
        (runSignups hash rs (signup hash db r).2).1,
       (runSignups hash rs (signup hash db r).2).2) := rfl

/-- Helper: a two-request run, given the outcome of each step. -/
theorem runSignups_two (hash : String → String) (r1 r2 : SignupReq)
    (db db1 db2 : DB) (o1 o2 : SignupOut)
    (h1 : signup hash db r1 = (o1, db1))
    (h2 : signup hash db1 r2 = (o2, db2)) :
    runSignups hash [r1, r2] db = ([o1, o2], db2) := by
  rw [runSignups_cons, h1]
  dsimp only
  rw [runSignups_singleton, h2]

/-- Helper: `signup_step1000` with the resulting store folded back into
`expectedRows` form. -/
theorem signup_step1000_folded :
    signup hashFix
      (userDB (expectedRows hashFix ((natsFrom 1 999).map reqFix) 1))
      (reqFix 1000) =
      (.created (fmtUserId (999 + 1)),
       userDB (expectedRows hashFix ((natsFrom 1 1000).map reqFix) 1)) := by
  rw [signup_step1000, rows1000_snoc]

/-- Helper: the last two requests of the counterexample run, started from
the state the first 999 leave behind: both succeed and both are issued
`fmtUserId 1000`. -/
theorem runSignups_tail2 :
    runSignups hashFix [reqFix 1000, reqFix 1001]
      (userDB (expectedRows hashFix ((natsFrom 1 999).map reqFix) 1)) =
      ([SignupOut.created (fmtUserId (999 + 1)),
        SignupOut.created (fmtUserId (999 + 1))],
       userDB (expectedRows hashFix ((natsFrom 1 1000).map reqFix) 1 ++
         [mkUserRow hashFix (reqFix 1001) (999 + 1)])) :=
  runSignups_two hashFix (reqFix 1000) (reqFix 1001) _ _ _ _ _
    signup_step1000_folded signup_step1001

/-- Helper: the outcome list of the 1001-request counterexample run: the
last two successes carry the same identifier. -/
theorem runSignups_reqs1001_outs :
    (runSignups hashFix reqs1001 (userDB [])).1 =
      (natsFrom 1 999).map (fun n => SignupOut.created (fmtUserId n)) ++
        [SignupOut.created (fmtUserId (999 + 1)),
         SignupOut.created (fmtUserId (999 + 1))] := by
  rw [reqs1001_split, runSignups_append, runSignups_first999]
  dsimp only
  rw [runSignups_tail2]

/-- Helper: identifiers issued by a list of successes. -/
theorem issuedIds_created (L : List Nat) :
    issuedIds (L.map (fun n => SignupOut.created (fmtUserId n))) =
      L.map fmtUserId := by
  induction L with
  | nil => rfl
  | cons a l ih =>
    show fmtUserId a ::
      issuedIds (l.map (fun n => SignupOut.created (fmtUserId n))) =
      fmtUserId a :: l.map fmtUserId
    rw [ih]

/-- Helper: `issuedIds` distributes over append. -/
theorem issuedIds_append (l1 l2 : List SignupOut) :
    issuedIds (l1 ++ l2) = issuedIds l1 ++ issuedIds l2 :=
  List.filterMap_append l1 l2 _

/-- Helper: the identifiers issued by the counterexample run. -/
theorem issuedIds_reqs1001 :
    issuedIds (runSignups hashFix reqs1001 (userDB [])).1 =
      (natsFrom 1 999).map fmtUserId ++
        [fmtUserId (999 + 1), fmtUserId (999 + 1)] := by
  rw [runSignups_reqs1001_outs, issuedIds_append, issuedIds_created]
  rfl

/-- Helper: every outcome in a list of successes has status 201. -/
theorem all_status_created (L : List Nat) :
    (L.map (fun n => SignupOut.created (fmtUserId n))).all
      (fun o => signupStatus o == 201) = true := by
  induction L with
  | nil => rfl
  | cons a l ih =>
    show ((signupStatus (.created (fmtUserId a)) == 201) &&
      (l.map (fun n => SignupOut.created (fmtUserId n))).all
        (fun o => signupStatus o == 201)) = true
    rw [ih]
    rfl

/-- Claim C2, counterexample: 1001 signup requests with pairwise-distinct
usernames and pairwise-distinct emails, run from an empty `User` table,
all succeed with status 201, yet the issued identifiers are **not**
strictly increasing: the 1000th and the 1001st request both receive
`U1000` (the string-DESC `MAX(user_id)` returns `U999` even after `U1000`
is stored, because `"U1000" < "U999"` in SQLite text order), so the issued
identifier list is not even duplicate-free. -/
theorem signup_identifier_repeats_cex :
    ((reqs1001.map (fun r => r.username)).Pairwise (· ≠ ·)) ∧
    ((reqs1001.map (fun r => r.email)).Pairwise (· ≠ ·)) ∧
    ((runSignups hashFix reqs1001 (userDB [])).1).all
      (fun o => signupStatus o == 201) = true ∧
    (issuedIds (runSignups hashFix reqs1001 (userDB [])).1).getD 999 ""
      = "U1000" ∧
    (issuedIds (runSignups hashFix reqs1001 (userDB [])).1).getD 1000 ""
      = "U1000" ∧
    ¬ (issuedIds (runSignups hashFix reqs1001 (userDB [])).1).Nodup := by
  refine ⟨reqFix_usernames_pairwise 1001 (by omega),
    reqFix_emails_pairwise 1001 (by omega), ?_, ?_, ?_, ?_⟩
  · rw [runSignups_reqs1001_outs, List.all_append, all_status_created]
    rfl
  · rw [issuedIds_reqs1001,
      List.getD_append_right _ _ _ _
        (by simp only [List.length_map, natsFrom_length]; omega)]
    simp only [List.length_map, natsFrom_length]
    decide
  · rw [issuedIds_reqs1001,
      List.getD_append_right _ _ _ _
        (by simp only [List.length_map, natsFrom_length]; omega)]
    simp only [List.length_map, natsFrom_length]
    decide
  · intro hnd
    rw [issuedIds_reqs1001] at hnd
    have hsl : [fmtUserId (999 + 1), fmtUserId (999 + 1)].Sublist
        ((natsFrom 1 999).map fmtUserId ++
          [fmtUserId (999 + 1), fmtUserId (999 + 1)]) :=
      List.sublist_append_right _ _
    have h2 := hnd.sublist hsl
    simp at h2
